import Mathlib

set_option maxRecDepth 100000

/-!
Verification of `src/bot.py` (Maison de Café Telegram bot)

This file shallowly embeds the pure logic of `src/bot.py` in Lean 4 and proves
the behavioural claims stated about it.

Conventions of the embedding:

* The distributed copy of `src/bot.py` is UTF-8 text that was accidentally
  decoded as Mac-Roman and re-encoded as UTF-8 at some point of distribution
  (e.g. `"☕ Що таке"` appears as the double-encoded byte sequence).  The
  transformation is lossless and was inverted before transcription, so every
  string below is the original literal of the program.
* Python strings are `String`/`List Char`; `str.lower`, `str.strip` and the
  word/space/digit character classes of the `re` module are modelled on the
  character repertoire actually reachable in this program (ASCII, Latin-1
  letters, Cyrillic, general punctuation, the euro sign and emoji).
* The regular expressions of the program are small and backtracking-free
  except for the bounded `\d{1,3}` counters; they are modelled by explicit
  token matchers (`Tok`) with word-boundary support, and by dedicated
  matchers for the two cups/day patterns.
* Float arithmetic of the calculator is modelled exactly: every value the
  program computes is an integer number of 0.1 € units, so the calculator is
  embedded both as exact rationals (for the arithmetic claims) and as
  (value × 10) integers (for the formatted strings); the two are linked by
  theorems.  The `{x:,.0f}` format rounds to the nearest integer, which is
  exact on these values.
* Network effects (OpenAI Assistants API, the verifier model) are modelled by
  an explicit oracle record whose fields give the outcome of each external
  call, `Except` capturing raised exceptions.
-/

namespace MdcBot

/-- Build a string from unicode code points (used for labels with
supplementary-plane emoji, which have no `\uXXXX` escape). -/
def strOfCodes (l : List Nat) : String := String.mk (l.map Char.ofNat)

/-- Python `\s` / `str.strip` whitespace, on the reachable repertoire. -/
def isSpaceChar (c : Char) : Bool :=
  decide (c = ' ' ∨ c = '\t' ∨ c = '\n' ∨ c = '\r' ∨ c = '\x0b' ∨ c = '\x0c' ∨
    c.val = 0x85 ∨ c.val = 0xa0 ∨ c.val = 0x1680 ∨
    (0x2000 ≤ c.val ∧ c.val ≤ 0x200a) ∨
    c.val = 0x2028 ∨ c.val = 0x2029 ∨ c.val = 0x202f ∨ c.val = 0x205f ∨
    c.val = 0x3000)

/-- Python `\d` (ASCII digits on the reachable repertoire). -/
def isDigitChar (c : Char) : Bool := c.isDigit

/-- Python `\w` (word character) on the reachable repertoire: ASCII
alphanumerics and `_`, Latin-1/Latin-Extended-A letters, Cyrillic. -/
def isWordChar (c : Char) : Bool :=
  c.isAlphanum ||
  decide (c = '_' ∨
    (0xc0 ≤ c.val ∧ c.val ≤ 0x24f ∧ c.val ≠ 0xd7 ∧ c.val ≠ 0xf7) ∨
    (0x400 ≤ c.val ∧ c.val ≤ 0x4ff))

/-- Alphanumeric test used by the (spec-modelled) spam guard density check. -/
def isAlnumChar (c : Char) : Bool :=
  c.isAlphanum ||
  decide ((0xc0 ≤ c.val ∧ c.val ≤ 0x24f ∧ c.val ≠ 0xd7 ∧ c.val ≠ 0xf7) ∨
    (0x400 ≤ c.val ∧ c.val ≤ 0x4ff))

/-- Python `str.lower` on the reachable repertoire: ASCII, Latin-1 capitals,
Cyrillic А..Я, Ѐ..Џ (covers Ё/І/Ї/Є), Ґ. -/
def toLowerCh (c : Char) : Char :=
  if 'A' ≤ c ∧ c ≤ 'Z' then Char.ofNat (c.toNat + 32)
  else if 0xc0 ≤ c.val ∧ c.val ≤ 0xde ∧ c.val ≠ 0xd7 then Char.ofNat (c.toNat + 32)
  else if 0x410 ≤ c.val ∧ c.val ≤ 0x42f then Char.ofNat (c.toNat + 32)
  else if 0x400 ≤ c.val ∧ c.val ≤ 0x40f then Char.ofNat (c.toNat + 80)
  else if c.val = 0x490 then Char.ofNat 0x491
  else c

def lowerList (l : List Char) : List Char := l.map toLowerCh

/-- Python `text.lower()`. -/
def pyLower (s : String) : String := String.mk (lowerList s.data)

/-- Python `str.strip()` on a character list. -/
def trimChars (l : List Char) : List Char :=
  ((l.dropWhile isSpaceChar).reverse.dropWhile isSpaceChar).reverse

/-- Python `text.strip()`. -/
def pyStrip (s : String) : String := String.mk (trimChars s.data)

/-- Substring test (Python `needle in hay`). -/
def containsSub (hay needle : List Char) : Bool :=
  needle.isPrefixOf hay ||
    match hay with
    | [] => false
    | _ :: t => containsSub t needle

/-- Substring test on strings. -/
def strContains (hay needle : String) : Bool := containsSub hay.data needle.data

/-!
Numeric formatting of the calculator

`euro(x) = f"{x:,.0f} €".replace(",", " ")` in the source: the value rounded
to a whole number of euros, digits grouped in threes by spaces.  All values
passed to it in the program are integer multiples of 0.1 (exactly: of 1.0),
represented here scaled by 10, so the float rounding is exact.
-/

/-- Render `m` (0 ≤ m < 1000) as exactly three digits. -/
def pad3 (m : ℕ) : String :=
  if m < 10 then "00" ++ Nat.repr m
  else if m < 100 then "0" ++ Nat.repr m
  else Nat.repr m

/-- Group the digits of a natural number in threes, space-separated
(fuel-based so that the kernel can evaluate it; `fuel ≥ n` suffices). -/
def natGroupAux : ℕ → ℕ → String
  | 0, n => Nat.repr n
  | fuel + 1, n =>
    if n < 1000 then Nat.repr n
    else natGroupAux fuel (n / 1000) ++ " " ++ pad3 (n % 1000)

def natGroup (n : ℕ) : String := natGroupAux n n

/-- `f"{x:,.0f}".replace(",", " ")` for an integer value. -/
def intGroup (n : ℤ) : String :=
  if n < 0 then "-" ++ natGroup n.natAbs else natGroup n.toNat

/-- The `euro` formatter of the source, on values scaled by 10 (tenths of €).
Every value fed to it in the program is a multiple of 10 tenths, so the
division is exact and matches the float `.0f` rounding. -/
def euro (xScaled : ℤ) : String := intGroup (Int.ediv xScaled 10) ++ " €"

/-!
The deterministic profit calculator: numbers

Source (`_profit_answer`):
```
margin_per_cup = 1.8
days = 30
gross = margin_per_cup * cups * days
net_low_cost = gross - 600
net_high_cost = gross - 450
```
-/

def margin_per_cup : ℚ := 1.8

def daysPerMonth : ℕ := 30

def grossQ (cups : ℕ) : ℚ := margin_per_cup * cups * daysPerMonth

def netLowQ (cups : ℕ) : ℚ := grossQ cups - 600

def netHighQ (cups : ℕ) : ℚ := grossQ cups - 450

/-- `gross`, scaled by 10 (exact integer mirror of the float value). -/
def grossScaled (cups : ℕ) : ℤ := 18 * cups * 30

/-- `net_low_cost`, scaled by 10. -/
def netLowScaled (cups : ℕ) : ℤ := grossScaled cups - 6000

/-- `net_high_cost`, scaled by 10. -/
def netHighScaled (cups : ℕ) : ℤ := grossScaled cups - 4500
-- Menu button labels (MENU_LABELS in bot.py); insertion order preserved.
def menu_UA_what : String := "\u2615 \u0429\u043e \u0442\u0430\u043a\u0435 Maison de Caf\u00e9?"
def menu_UA_price : String := strOfCodes [0x1f4b6, 0x20, 0x421, 0x43a, 0x456, 0x43b, 0x44c, 0x43a, 0x438, 0x20, 0x43a, 0x43e, 0x448, 0x442, 0x443, 0x454, 0x20, 0x432, 0x456, 0x434, 0x43a, 0x440, 0x438, 0x442, 0x438, 0x3f]
def menu_UA_payback : String := strOfCodes [0x1f4c8, 0x20, 0x41e, 0x43a, 0x443, 0x43f, 0x43d, 0x456, 0x441, 0x442, 0x44c, 0x20, 0x456, 0x20, 0x43f, 0x440, 0x438, 0x431, 0x443, 0x442, 0x43e, 0x43a]
def menu_UA_terms : String := strOfCodes [0x1f91d, 0x20, 0x423, 0x43c, 0x43e, 0x432, 0x438, 0x20, 0x441, 0x43f, 0x456, 0x432, 0x43f, 0x440, 0x430, 0x446, 0x456]
def menu_UA_contacts : String := strOfCodes [0x1f4de, 0x20, 0x41a, 0x43e, 0x43d, 0x442, 0x430, 0x43a, 0x442, 0x438, 0x20, 0x2f, 0x20, 0x43d, 0x430, 0x441, 0x442, 0x443, 0x43f, 0x43d, 0x438, 0x439, 0x20, 0x43a, 0x440, 0x43e, 0x43a]
def menu_UA_lead : String := strOfCodes [0x1f4dd, 0x20, 0x417, 0x430, 0x43b, 0x438, 0x448, 0x438, 0x442, 0x438, 0x20, 0x437, 0x430, 0x44f, 0x432, 0x43a, 0x443]
def menu_UA_lang : String := strOfCodes [0x1f30d, 0x20, 0x41c, 0x43e, 0x432, 0x430]
def menu_UA_presentation : String := strOfCodes [0x1f4c4, 0x20, 0x41f, 0x440, 0x435, 0x437, 0x435, 0x43d, 0x442, 0x430, 0x446, 0x456, 0x44f]
def menu_RU_what : String := "\u2615 \u0427\u0442\u043e \u0442\u0430\u043a\u043e\u0435 Maison de Caf\u00e9?"
def menu_RU_price : String := strOfCodes [0x1f4b6, 0x20, 0x421, 0x43a, 0x43e, 0x43b, 0x44c, 0x43a, 0x43e, 0x20, 0x441, 0x442, 0x43e, 0x438, 0x442, 0x20, 0x43e, 0x442, 0x43a, 0x440, 0x44b, 0x442, 0x44c, 0x3f]
def menu_RU_payback : String := strOfCodes [0x1f4c8, 0x20, 0x41e, 0x43a, 0x443, 0x43f, 0x430, 0x435, 0x43c, 0x43e, 0x441, 0x442, 0x44c, 0x20, 0x438, 0x20, 0x43f, 0x440, 0x438, 0x431, 0x44b, 0x43b, 0x44c]
def menu_RU_terms : String := strOfCodes [0x1f91d, 0x20, 0x423, 0x441, 0x43b, 0x43e, 0x432, 0x438, 0x44f, 0x20, 0x441, 0x43e, 0x442, 0x440, 0x443, 0x434, 0x43d, 0x438, 0x447, 0x435, 0x441, 0x442, 0x432, 0x430]
def menu_RU_contacts : String := strOfCodes [0x1f4de, 0x20, 0x41a, 0x43e, 0x43d, 0x442, 0x430, 0x43a, 0x442, 0x44b, 0x20, 0x2f, 0x20, 0x441, 0x43b, 0x435, 0x434, 0x443, 0x44e, 0x449, 0x438, 0x439, 0x20, 0x448, 0x430, 0x433]
def menu_RU_lead : String := strOfCodes [0x1f4dd, 0x20, 0x41e, 0x441, 0x442, 0x430, 0x432, 0x438, 0x442, 0x44c, 0x20, 0x437, 0x430, 0x44f, 0x432, 0x43a, 0x443]
def menu_RU_lang : String := strOfCodes [0x1f30d, 0x20, 0x42f, 0x437, 0x44b, 0x43a]
def menu_RU_presentation : String := strOfCodes [0x1f4c4, 0x20, 0x41f, 0x440, 0x435, 0x437, 0x435, 0x43d, 0x442, 0x430, 0x446, 0x438, 0x44f]
def menu_EN_what : String := "\u2615 What is Maison de Caf\u00e9?"
def menu_EN_price : String := strOfCodes [0x1f4b6, 0x20, 0x4f, 0x70, 0x65, 0x6e, 0x69, 0x6e, 0x67, 0x20, 0x63, 0x6f, 0x73, 0x74]
def menu_EN_payback : String := strOfCodes [0x1f4c8, 0x20, 0x50, 0x61, 0x79, 0x62, 0x61, 0x63, 0x6b, 0x20, 0x26, 0x20, 0x70, 0x72, 0x6f, 0x66, 0x69, 0x74]
def menu_EN_terms : String := strOfCodes [0x1f91d, 0x20, 0x50, 0x61, 0x72, 0x74, 0x6e, 0x65, 0x72, 0x73, 0x68, 0x69, 0x70, 0x20, 0x74, 0x65, 0x72, 0x6d, 0x73]
def menu_EN_contacts : String := strOfCodes [0x1f4de, 0x20, 0x43, 0x6f, 0x6e, 0x74, 0x61, 0x63, 0x74, 0x73, 0x20, 0x2f, 0x20, 0x6e, 0x65, 0x78, 0x74, 0x20, 0x73, 0x74, 0x65, 0x70]
def menu_EN_lead : String := strOfCodes [0x1f4dd, 0x20, 0x4c, 0x65, 0x61, 0x76, 0x65, 0x20, 0x61, 0x20, 0x72, 0x65, 0x71, 0x75, 0x65, 0x73, 0x74]
def menu_EN_lang : String := strOfCodes [0x1f30d, 0x20, 0x4c, 0x61, 0x6e, 0x67, 0x75, 0x61, 0x67, 0x65]
def menu_EN_presentation : String := strOfCodes [0x1f4c4, 0x20, 0x50, 0x72, 0x65, 0x73, 0x65, 0x6e, 0x74, 0x61, 0x74, 0x69, 0x6f, 0x6e]
def menu_FR_what : String := "\u2615 Qu\u2019est-ce que Maison de Caf\u00e9 ?"
def menu_FR_price : String := strOfCodes [0x1f4b6, 0x20, 0x43, 0x6f, 0xfb, 0x74, 0x20, 0x64, 0x65, 0x20, 0x6c, 0x61, 0x6e, 0x63, 0x65, 0x6d, 0x65, 0x6e, 0x74]
def menu_FR_payback : String := strOfCodes [0x1f4c8, 0x20, 0x52, 0x65, 0x6e, 0x74, 0x61, 0x62, 0x69, 0x6c, 0x69, 0x74, 0xe9, 0x20, 0x26, 0x20, 0x70, 0x72, 0x6f, 0x66, 0x69, 0x74]
def menu_FR_terms : String := strOfCodes [0x1f91d, 0x20, 0x43, 0x6f, 0x6e, 0x64, 0x69, 0x74, 0x69, 0x6f, 0x6e, 0x73]
def menu_FR_contacts : String := strOfCodes [0x1f4de, 0x20, 0x43, 0x6f, 0x6e, 0x74, 0x61, 0x63, 0x74, 0x73, 0x20, 0x2f, 0x20, 0x70, 0x72, 0x6f, 0x63, 0x68, 0x61, 0x69, 0x6e, 0x65, 0x20, 0xe9, 0x74, 0x61, 0x70, 0x65]
def menu_FR_lead : String := strOfCodes [0x1f4dd, 0x20, 0x4c, 0x61, 0x69, 0x73, 0x73, 0x65, 0x72, 0x20, 0x75, 0x6e, 0x65, 0x20, 0x64, 0x65, 0x6d, 0x61, 0x6e, 0x64, 0x65]
def menu_FR_lang : String := strOfCodes [0x1f30d, 0x20, 0x4c, 0x61, 0x6e, 0x67, 0x75, 0x65]
def menu_FR_presentation : String := strOfCodes [0x1f4c4, 0x20, 0x50, 0x72, 0xe9, 0x73, 0x65, 0x6e, 0x74, 0x61, 0x74, 0x69, 0x6f, 0x6e]
def menuTableUA : List (String × String) := [("what", menu_UA_what), ("price", menu_UA_price), ("payback", menu_UA_payback), ("terms", menu_UA_terms), ("contacts", menu_UA_contacts), ("lead", menu_UA_lead), ("lang", menu_UA_lang), ("presentation", menu_UA_presentation)]
def menuTableRU : List (String × String) := [("what", menu_RU_what), ("price", menu_RU_price), ("payback", menu_RU_payback), ("terms", menu_RU_terms), ("contacts", menu_RU_contacts), ("lead", menu_RU_lead), ("lang", menu_RU_lang), ("presentation", menu_RU_presentation)]
def menuTableEN : List (String × String) := [("what", menu_EN_what), ("price", menu_EN_price), ("payback", menu_EN_payback), ("terms", menu_EN_terms), ("contacts", menu_EN_contacts), ("lead", menu_EN_lead), ("lang", menu_EN_lang), ("presentation", menu_EN_presentation)]
def menuTableFR : List (String × String) := [("what", menu_FR_what), ("price", menu_FR_price), ("payback", menu_FR_payback), ("terms", menu_FR_terms), ("contacts", menu_FR_contacts), ("lead", menu_FR_lead), ("lang", menu_FR_lang), ("presentation", menu_FR_presentation)]

-- CONTACTS_TEXT in bot.py
def contacts_UA : String := "\u041a\u043e\u043d\u0442\u0430\u043a\u0442\u0438 Maison de Caf\u00e9:\n\u2022 Email: maisondecafe.coffee@gmail.com\n\u2022 \u0422\u0435\u043b\u0435\u0444\u043e\u043d: +32 470 600 806\n\u2022 Telegram: https://t.me/maisondecafe"
def contacts_RU : String := "\u041a\u043e\u043d\u0442\u0430\u043a\u0442\u044b Maison de Caf\u00e9:\n\u2022 Email: maisondecafe.coffee@gmail.com\n\u2022 \u0422\u0435\u043b\u0435\u0444\u043e\u043d: +32 470 600 806\n\u2022 Telegram: https://t.me/maisondecafe"
def contacts_EN : String := "Maison de Caf\u00e9 contacts:\n\u2022 Email: maisondecafe.coffee@gmail.com\n\u2022 Phone: +32 470 600 806\n\u2022 Telegram: https://t.me/maisondecafe"
def contacts_FR : String := "Contacts Maison de Caf\u00e9:\n\u2022 Email : maisondecafe.coffee@gmail.com\n\u2022 T\u00e9l\u00e9phone : +32 470 600 806\n\u2022 Telegram : https://t.me/maisondecafe"

-- GOLD standard answers (GOLD in bot.py)
def gold_RU_what : String := "\u042d\u0442\u043e \u0445\u043e\u0440\u043e\u0448\u0438\u0439 \u0432\u043e\u043f\u0440\u043e\u0441, \u0441 \u043d\u0435\u0433\u043e \u043e\u0431\u044b\u0447\u043d\u043e \u0438 \u043d\u0430\u0447\u0438\u043d\u0430\u0435\u0442\u0441\u044f \u0437\u043d\u0430\u043a\u043e\u043c\u0441\u0442\u0432\u043e. Maison de Caf\u00e9 \u2014 \u044d\u0442\u043e \u0433\u043e\u0442\u043e\u0432\u0430\u044f \u0442\u043e\u0447\u043a\u0430 \u0441\u0430\u043c\u043e\u043e\u0431\u0441\u043b\u0443\u0436\u0438\u0432\u0430\u043d\u0438\u044f \u043f\u043e\u0434 \u043a\u043b\u044e\u0447 \u0432 \u0411\u0435\u043b\u044c\u0433\u0438\u0438. \u0412\u044b \u043f\u043e\u043b\u0443\u0447\u0430\u0435\u0442\u0435 \u043f\u0440\u043e\u0444\u0435\u0441\u0441\u0438\u043e\u043d\u0430\u043b\u044c\u043d\u044b\u0439 \u043a\u043e\u0444\u0435\u0439\u043d\u044b\u0439 \u0430\u0432\u0442\u043e\u043c\u0430\u0442 Jetinno JL-300, \u0444\u0438\u0440\u043c\u0435\u043d\u043d\u0443\u044e \u0441\u0442\u043e\u0439\u043a\u0443, \u0441\u0438\u0441\u0442\u0435\u043c\u0443 \u043a\u043e\u043d\u0442\u0440\u043e\u043b\u044f \u0438 \u0441\u0442\u0430\u0440\u0442\u043e\u0432\u044b\u0439 \u043d\u0430\u0431\u043e\u0440 \u0438\u043d\u0433\u0440\u0435\u0434\u0438\u0435\u043d\u0442\u043e\u0432, \u0430 \u0442\u0430\u043a\u0436\u0435 \u043e\u0431\u0443\u0447\u0435\u043d\u0438\u0435 \u0438 \u0441\u043e\u043f\u0440\u043e\u0432\u043e\u0436\u0434\u0435\u043d\u0438\u0435 \u0437\u0430\u043f\u0443\u0441\u043a\u0430. \u0424\u043e\u0440\u043c\u0430\u0442 \u0440\u0430\u0441\u0441\u0447\u0438\u0442\u0430\u043d \u043d\u0430 \u0431\u044b\u0441\u0442\u0440\u044b\u0439 \u0441\u0442\u0430\u0440\u0442 \u0431\u0435\u0437 \u043e\u043f\u044b\u0442\u0430 \u0432 \u043a\u043e\u0444\u0435\u0439\u043d\u043e\u043c \u0431\u0438\u0437\u043d\u0435\u0441\u0435 \u0438 \u0440\u0430\u0431\u043e\u0442\u0443 \u0431\u0435\u0437 \u043f\u0435\u0440\u0441\u043e\u043d\u0430\u043b\u0430. \u0414\u0430\u043b\u044c\u0448\u0435 \u043b\u043e\u0433\u0438\u0447\u043d\u043e \u043b\u0438\u0431\u043e \u0440\u0430\u0437\u043e\u0431\u0440\u0430\u0442\u044c \u0441\u0442\u043e\u0438\u043c\u043e\u0441\u0442\u044c \u0437\u0430\u043f\u0443\u0441\u043a\u0430, \u043b\u0438\u0431\u043e \u043f\u043e\u0441\u043c\u043e\u0442\u0440\u0435\u0442\u044c \u043d\u0430 \u043e\u043a\u0443\u043f\u0430\u0435\u043c\u043e\u0441\u0442\u044c \u0438 \u0440\u0435\u0430\u043b\u044c\u043d\u044b\u0435 \u0446\u0438\u0444\u0440\u044b."
def gold_RU_price : String := "\u042d\u0442\u043e \u0445\u043e\u0440\u043e\u0448\u0438\u0439 \u0432\u043e\u043f\u0440\u043e\u0441, \u0434\u0430\u0432\u0430\u0439\u0442\u0435 \u0434\u0435\u0442\u0430\u043b\u044c\u043d\u043e \u0440\u0430\u0437\u0431\u0435\u0440\u0435\u043c \u044d\u0442\u043e\u0442 \u0432\u043e\u043f\u0440\u043e\u0441. \u0411\u0430\u0437\u043e\u0432\u0430\u044f \u0441\u0442\u043e\u0438\u043c\u043e\u0441\u0442\u044c \u0437\u0430\u043f\u0443\u0441\u043a\u0430 \u0442\u043e\u0447\u043a\u0438 Maison de Caf\u00e9 \u0432 \u0411\u0435\u043b\u044c\u0433\u0438\u0438 \u0441\u043e\u0441\u0442\u0430\u0432\u043b\u044f\u0435\u0442 9 800 \u20ac. \u0412 \u044d\u0442\u0443 \u0441\u0443\u043c\u043c\u0443 \u0432\u0445\u043e\u0434\u0438\u0442 \u043f\u0440\u043e\u0444\u0435\u0441\u0441\u0438\u043e\u043d\u0430\u043b\u044c\u043d\u044b\u0439 \u0430\u0432\u0442\u043e\u043c\u0430\u0442 Jetinno JL-300, \u0444\u0438\u0440\u043c\u0435\u043d\u043d\u0430\u044f \u0441\u0442\u043e\u0439\u043a\u0430, \u0442\u0435\u043b\u0435\u043c\u0435\u0442\u0440\u0438\u044f, \u0441\u0442\u0430\u0440\u0442\u043e\u0432\u044b\u0439 \u043d\u0430\u0431\u043e\u0440 \u0438\u043d\u0433\u0440\u0435\u0434\u0438\u0435\u043d\u0442\u043e\u0432, \u043e\u0431\u0443\u0447\u0435\u043d\u0438\u0435 \u0438 \u043f\u043e\u043b\u043d\u044b\u0439 \u0437\u0430\u043f\u0443\u0441\u043a. \u042d\u0442\u043e \u043d\u0435 \u0444\u0440\u0430\u043d\u0448\u0438\u0437\u0430 \u0441 \u043f\u0430\u043a\u0435\u0442\u0430\u043c\u0438 \u0438 \u0441\u043a\u0440\u044b\u0442\u044b\u043c\u0438 \u043f\u043b\u0430\u0442\u0435\u0436\u0430\u043c\u0438 \u2014 \u0432\u044b \u043f\u043b\u0430\u0442\u0438\u0442\u0435 \u0437\u0430 \u043a\u043e\u043d\u043a\u0440\u0435\u0442\u043d\u043e\u0435 \u043e\u0431\u043e\u0440\u0443\u0434\u043e\u0432\u0430\u043d\u0438\u0435 \u0438 \u0441\u0435\u0440\u0432\u0438\u0441. \u041e\u0442\u0434\u0435\u043b\u044c\u043d\u043e \u043e\u0431\u044b\u0447\u043d\u043e \u0443\u0447\u0438\u0442\u044b\u0432\u0430\u044e\u0442\u0441\u044f \u0442\u043e\u043b\u044c\u043a\u043e \u0432\u0435\u0449\u0438, \u0437\u0430\u0432\u0438\u0441\u044f\u0449\u0438\u0435 \u043e\u0442 \u0432\u0430\u0448\u0435\u0439 \u0441\u0438\u0442\u0443\u0430\u0446\u0438\u0438, \u043d\u0430\u043f\u0440\u0438\u043c\u0435\u0440 \u0430\u0440\u0435\u043d\u0434\u0430 \u043b\u043e\u043a\u0430\u0446\u0438\u0438 \u0438\u043b\u0438 \u044d\u043b\u0435\u043a\u0442\u0440\u0438\u0447\u0435\u0441\u0442\u0432\u043e. \u0414\u0430\u043b\u044c\u0448\u0435 \u043b\u043e\u0433\u0438\u0447\u043d\u043e \u043b\u0438\u0431\u043e \u043f\u043e\u0441\u043c\u043e\u0442\u0440\u0435\u0442\u044c \u043e\u043a\u0443\u043f\u0430\u0435\u043c\u043e\u0441\u0442\u044c, \u043b\u0438\u0431\u043e \u043e\u0431\u0441\u0443\u0434\u0438\u0442\u044c \u0432\u0430\u0448\u0443 \u0431\u0443\u0434\u0443\u0449\u0443\u044e \u043b\u043e\u043a\u0430\u0446\u0438\u044e."
def gold_RU_payback : String := "\u042d\u0442\u043e \u0445\u043e\u0440\u043e\u0448\u0438\u0439 \u0432\u043e\u043f\u0440\u043e\u0441, \u0434\u0430\u0432\u0430\u0439\u0442\u0435 \u0434\u0435\u0442\u0430\u043b\u044c\u043d\u043e \u0440\u0430\u0437\u0431\u0435\u0440\u0435\u043c \u044d\u0442\u043e\u0442 \u0432\u043e\u043f\u0440\u043e\u0441. \u0412 \u0431\u0430\u0437\u043e\u0432\u043e\u0439 \u043c\u043e\u0434\u0435\u043b\u0438 Maison de Caf\u00e9 \u0441\u0440\u0435\u0434\u043d\u044f\u044f \u043c\u0430\u0440\u0436\u0430 \u0441 \u043e\u0434\u043d\u043e\u0439 \u0447\u0430\u0448\u043a\u0438 \u0441\u043e\u0441\u0442\u0430\u0432\u043b\u044f\u0435\u0442 \u043e\u043a\u043e\u043b\u043e 1,8 \u20ac, \u0430 \u0442\u0438\u043f\u0438\u0447\u043d\u044b\u0439 \u043e\u0431\u044a\u0451\u043c \u043f\u0440\u043e\u0434\u0430\u0436 \u2014 \u043f\u0440\u0438\u043c\u0435\u0440\u043d\u043e 35 \u0447\u0430\u0448\u0435\u043a \u0432 \u0434\u0435\u043d\u044c. \u042d\u0442\u043e \u0434\u0430\u0451\u0442 \u0432\u0430\u043b\u043e\u0432\u0443\u044e \u043c\u0430\u0440\u0436\u0443 \u043f\u043e\u0440\u044f\u0434\u043a\u0430 1 900 \u20ac \u0432 \u043c\u0435\u0441\u044f\u0446, \u0438\u0437 \u043a\u043e\u0442\u043e\u0440\u043e\u0439 \u043f\u043e\u0441\u043b\u0435 \u0441\u0442\u0430\u043d\u0434\u0430\u0440\u0442\u043d\u044b\u0445 \u0440\u0430\u0441\u0445\u043e\u0434\u043e\u0432 \u043e\u0431\u044b\u0447\u043d\u043e \u043e\u0441\u0442\u0430\u0451\u0442\u0441\u044f \u043e\u043a\u043e\u043b\u043e 1 200\u20131 300 \u20ac \u0447\u0438\u0441\u0442\u043e\u0439 \u043f\u0440\u0438\u0431\u044b\u043b\u0438. \u041f\u0440\u0438 \u0442\u0430\u043a\u0438\u0445 \u043f\u043e\u043a\u0430\u0437\u0430\u0442\u0435\u043b\u044f\u0445 \u0442\u043e\u0447\u043a\u0430 \u0432\u044b\u0445\u043e\u0434\u0438\u0442 \u043d\u0430 \u043e\u043a\u0443\u043f\u0430\u0435\u043c\u043e\u0441\u0442\u044c \u0432 \u0441\u0440\u0435\u0434\u043d\u0435\u043c \u0437\u0430 9\u201312 \u043c\u0435\u0441\u044f\u0446\u0435\u0432, \u043d\u043e \u0440\u0435\u0430\u043b\u044c\u043d\u044b\u0439 \u0440\u0435\u0437\u0443\u043b\u044c\u0442\u0430\u0442 \u0432\u0441\u0435\u0433\u0434\u0430 \u0437\u0430\u0432\u0438\u0441\u0438\u0442 \u043e\u0442 \u043b\u043e\u043a\u0430\u0446\u0438\u0438 \u0438 \u043f\u043e\u0442\u043e\u043a\u0430 \u043b\u044e\u0434\u0435\u0439. \u041c\u043e\u0436\u0435\u043c \u0440\u0430\u0437\u043e\u0431\u0440\u0430\u0442\u044c \u043a\u043e\u043d\u043a\u0440\u0435\u0442\u043d\u043e\u0435 \u043c\u0435\u0441\u0442\u043e \u0438\u043b\u0438 \u043f\u0435\u0440\u0435\u0439\u0442\u0438 \u043a \u0443\u0441\u043b\u043e\u0432\u0438\u044f\u043c \u0441\u043e\u0442\u0440\u0443\u0434\u043d\u0438\u0447\u0435\u0441\u0442\u0432\u0430."
def gold_RU_terms : String := "\u042d\u0442\u043e \u0445\u043e\u0440\u043e\u0448\u0438\u0439 \u0432\u043e\u043f\u0440\u043e\u0441, \u0434\u0430\u0432\u0430\u0439\u0442\u0435 \u0434\u0435\u0442\u0430\u043b\u044c\u043d\u043e \u0440\u0430\u0437\u0431\u0435\u0440\u0435\u043c \u044d\u0442\u043e\u0442 \u0432\u043e\u043f\u0440\u043e\u0441. Maison de Caf\u00e9 \u2014 \u044d\u0442\u043e \u043d\u0435 \u043a\u043b\u0430\u0441\u0441\u0438\u0447\u0435\u0441\u043a\u0430\u044f \u0444\u0440\u0430\u043d\u0448\u0438\u0437\u0430 \u0441 \u0436\u0451\u0441\u0442\u043a\u0438\u043c\u0438 \u043f\u0440\u0430\u0432\u0438\u043b\u0430\u043c\u0438 \u0438 \u043f\u0430\u0443\u0448\u0430\u043b\u044c\u043d\u044b\u043c\u0438 \u0432\u0437\u043d\u043e\u0441\u0430\u043c\u0438. \u042d\u0442\u043e \u043f\u0430\u0440\u0442\u043d\u0451\u0440\u0441\u043a\u0430\u044f \u043c\u043e\u0434\u0435\u043b\u044c: \u0432\u044b \u0438\u043d\u0432\u0435\u0441\u0442\u0438\u0440\u0443\u0435\u0442\u0435 \u0432 \u043e\u0431\u043e\u0440\u0443\u0434\u043e\u0432\u0430\u043d\u0438\u0435 \u0438 \u0443\u043f\u0440\u0430\u0432\u043b\u044f\u0435\u0442\u0435 \u0442\u043e\u0447\u043a\u043e\u0439, \u0430 \u043c\u044b \u043e\u0431\u0435\u0441\u043f\u0435\u0447\u0438\u0432\u0430\u0435\u043c \u043f\u0440\u043e\u0434\u0443\u043a\u0442, \u0441\u0442\u0430\u043d\u0434\u0430\u0440\u0442\u044b \u043a\u0430\u0447\u0435\u0441\u0442\u0432\u0430, \u043e\u0431\u0443\u0447\u0435\u043d\u0438\u0435 \u0438 \u043f\u043e\u0434\u0434\u0435\u0440\u0436\u043a\u0443 \u043d\u0430 \u0441\u0442\u0430\u0440\u0442\u0435. \u0423 \u0432\u0430\u0441 \u043e\u0441\u0442\u0430\u0451\u0442\u0441\u044f \u0441\u0432\u043e\u0431\u043e\u0434\u0430 \u0432 \u0432\u044b\u0431\u043e\u0440\u0435 \u043b\u043e\u043a\u0430\u0446\u0438\u0438 \u0438 \u0443\u043f\u0440\u0430\u0432\u043b\u0435\u043d\u0438\u0438 \u0431\u0438\u0437\u043d\u0435\u0441\u043e\u043c. \u041c\u043e\u0436\u0435\u043c \u043e\u0431\u0441\u0443\u0434\u0438\u0442\u044c \u0432\u0430\u0448\u0443 \u0438\u0434\u0435\u044e \u0438\u043b\u0438 \u043f\u0435\u0440\u0435\u0439\u0442\u0438 \u043a \u0441\u043b\u0435\u0434\u0443\u044e\u0449\u0435\u043c\u0443 \u0448\u0430\u0433\u0443."
def gold_RU_contacts : String := "\u042d\u0442\u043e \u0445\u043e\u0440\u043e\u0448\u0438\u0439 \u0432\u043e\u043f\u0440\u043e\u0441, \u0434\u0430\u0432\u0430\u0439\u0442\u0435 \u0434\u0435\u0442\u0430\u043b\u044c\u043d\u043e \u0440\u0430\u0437\u0431\u0435\u0440\u0435\u043c \u044d\u0442\u043e\u0442 \u0432\u043e\u043f\u0440\u043e\u0441. \u0415\u0441\u043b\u0438 \u0432\u044b \u0434\u043e\u0448\u043b\u0438 \u0434\u043e \u044d\u0442\u043e\u0433\u043e \u044d\u0442\u0430\u043f\u0430, \u0437\u043d\u0430\u0447\u0438\u0442 \u0444\u043e\u0440\u043c\u0430\u0442 \u0432\u0430\u043c \u0434\u0435\u0439\u0441\u0442\u0432\u0438\u0442\u0435\u043b\u044c\u043d\u043e \u0438\u043d\u0442\u0435\u0440\u0435\u0441\u0435\u043d. \u0421\u0430\u043c\u044b\u0439 \u043f\u043e\u043b\u0435\u0437\u043d\u044b\u0439 \u0441\u043b\u0435\u0434\u0443\u044e\u0449\u0438\u0439 \u0448\u0430\u0433 \u2014 \u043a\u043e\u0440\u043e\u0442\u043a\u043e \u043e\u0431\u0441\u0443\u0434\u0438\u0442\u044c \u0432\u0430\u0448\u0443 \u0441\u0438\u0442\u0443\u0430\u0446\u0438\u044e: \u043b\u043e\u043a\u0430\u0446\u0438\u044e, \u0431\u044e\u0434\u0436\u0435\u0442 \u0438 \u043e\u0436\u0438\u0434\u0430\u043d\u0438\u044f. \u0422\u0430\u043a \u0441\u0442\u0430\u043d\u043e\u0432\u0438\u0442\u0441\u044f \u043f\u043e\u043d\u044f\u0442\u043d\u043e, \u043d\u0430\u0441\u043a\u043e\u043b\u044c\u043a\u043e Maison de Caf\u00e9 \u043f\u043e\u0434\u0445\u043e\u0434\u0438\u0442 \u0438\u043c\u0435\u043d\u043d\u043e \u0432\u0430\u043c, \u0431\u0435\u0437 \u0442\u0435\u043e\u0440\u0438\u0438 \u0438 \u043b\u0438\u0448\u043d\u0438\u0445 \u043e\u0431\u0435\u0449\u0430\u043d\u0438\u0439. \u041c\u043e\u0436\u0435\u043c \u043b\u0438\u0431\u043e \u043e\u0444\u043e\u0440\u043c\u0438\u0442\u044c \u0437\u0430\u044f\u0432\u043a\u0443 \u0438 \u0440\u0430\u0437\u043e\u0431\u0440\u0430\u0442\u044c \u0432\u0441\u0451 \u043f\u0435\u0440\u0441\u043e\u043d\u0430\u043b\u044c\u043d\u043e, \u043b\u0438\u0431\u043e \u0432\u0435\u0440\u043d\u0443\u0442\u044c\u0441\u044f \u043a \u0446\u0438\u0444\u0440\u0430\u043c \u0438 \u0435\u0449\u0451 \u0440\u0430\u0437 \u0441\u043f\u043e\u043a\u043e\u0439\u043d\u043e \u043f\u0440\u043e\u0439\u0442\u0438\u0441\u044c \u043f\u043e \u043e\u043a\u0443\u043f\u0430\u0435\u043c\u043e\u0441\u0442\u0438."
def gold_UA_what : String := "\u0426\u0435 \u0445\u043e\u0440\u043e\u0448\u0438\u0439 \u0437\u0430\u043f\u0438\u0442 \u2014 \u0437 \u043d\u044c\u043e\u0433\u043e \u0437\u0430\u0437\u0432\u0438\u0447\u0430\u0439 \u0456 \u043f\u043e\u0447\u0438\u043d\u0430\u0454\u0442\u044c\u0441\u044f \u0437\u043d\u0430\u0439\u043e\u043c\u0441\u0442\u0432\u043e. Maison de Caf\u00e9 \u2014 \u0446\u0435 \u0433\u043e\u0442\u043e\u0432\u0430 \u0442\u043e\u0447\u043a\u0430 \u0441\u0430\u043c\u043e\u043e\u0431\u0441\u043b\u0443\u0433\u043e\u0432\u0443\u0432\u0430\u043d\u043d\u044f \u00ab\u043f\u0456\u0434 \u043a\u043b\u044e\u0447\u00bb \u0443 \u0411\u0435\u043b\u044c\u0433\u0456\u0457. \u0412\u0438 \u043e\u0442\u0440\u0438\u043c\u0443\u0454\u0442\u0435 \u043f\u0440\u043e\u0444\u0435\u0441\u0456\u0439\u043d\u0438\u0439 \u0430\u0432\u0442\u043e\u043c\u0430\u0442 Jetinno JL-300, \u0444\u0456\u0440\u043c\u043e\u0432\u0443 \u0441\u0442\u0456\u0439\u043a\u0443, \u0441\u0438\u0441\u0442\u0435\u043c\u0443 \u043a\u043e\u043d\u0442\u0440\u043e\u043b\u044e \u0442\u0430 \u0441\u0442\u0430\u0440\u0442\u043e\u0432\u0438\u0439 \u043d\u0430\u0431\u0456\u0440 \u0456\u043d\u0433\u0440\u0435\u0434\u0456\u0454\u043d\u0442\u0456\u0432, \u0430 \u0442\u0430\u043a\u043e\u0436 \u043d\u0430\u0432\u0447\u0430\u043d\u043d\u044f \u0456 \u0441\u0443\u043f\u0440\u043e\u0432\u0456\u0434 \u0437\u0430\u043f\u0443\u0441\u043a\u0443. \u0424\u043e\u0440\u043c\u0430\u0442 \u0440\u043e\u0437\u0440\u0430\u0445\u043e\u0432\u0430\u043d\u0438\u0439 \u043d\u0430 \u0448\u0432\u0438\u0434\u043a\u0438\u0439 \u0441\u0442\u0430\u0440\u0442 \u0431\u0435\u0437 \u0434\u043e\u0441\u0432\u0456\u0434\u0443 \u0442\u0430 \u0440\u043e\u0431\u043e\u0442\u0443 \u0431\u0435\u0437 \u043f\u0435\u0440\u0441\u043e\u043d\u0430\u043b\u0443. \u0414\u0430\u043b\u0456 \u043b\u043e\u0433\u0456\u0447\u043d\u043e \u0430\u0431\u043e \u0440\u043e\u0437\u0456\u0431\u0440\u0430\u0442\u0438 \u0432\u0430\u0440\u0442\u0456\u0441\u0442\u044c \u0437\u0430\u043f\u0443\u0441\u043a\u0443, \u0430\u0431\u043e \u043f\u0435\u0440\u0435\u0439\u0442\u0438 \u0434\u043e \u043e\u043a\u0443\u043f\u043d\u043e\u0441\u0442\u0456 \u0442\u0430 \u0446\u0438\u0444\u0440."
def gold_UA_price : String := "\u0426\u0435 \u0445\u043e\u0440\u043e\u0448\u0438\u0439 \u0437\u0430\u043f\u0438\u0442, \u0434\u0430\u0432\u0430\u0439\u0442\u0435 \u0434\u0435\u0442\u0430\u043b\u044c\u043d\u043e \u0440\u043e\u0437\u0431\u0435\u0440\u0435\u043c\u043e \u0446\u0435 \u043f\u0438\u0442\u0430\u043d\u043d\u044f. \u0411\u0430\u0437\u043e\u0432\u0430 \u0432\u0430\u0440\u0442\u0456\u0441\u0442\u044c \u0437\u0430\u043f\u0443\u0441\u043a\u0443 \u0442\u043e\u0447\u043a\u0438 Maison de Caf\u00e9 \u0432 \u0411\u0435\u043b\u044c\u0433\u0456\u0457 \u2014 9 800 \u20ac. \u0423 \u0446\u044e \u0441\u0443\u043c\u0443 \u0432\u0445\u043e\u0434\u0438\u0442\u044c Jetinno JL-300, \u0444\u0456\u0440\u043c\u043e\u0432\u0430 \u0441\u0442\u0456\u0439\u043a\u0430, \u0442\u0435\u043b\u0435\u043c\u0435\u0442\u0440\u0456\u044f, \u0441\u0442\u0430\u0440\u0442\u043e\u0432\u0438\u0439 \u043d\u0430\u0431\u0456\u0440 \u0456\u043d\u0433\u0440\u0435\u0434\u0456\u0454\u043d\u0442\u0456\u0432, \u043d\u0430\u0432\u0447\u0430\u043d\u043d\u044f \u0442\u0430 \u043f\u043e\u0432\u043d\u0438\u0439 \u0437\u0430\u043f\u0443\u0441\u043a. \u0426\u0435 \u043d\u0435 \u043a\u043b\u0430\u0441\u0438\u0447\u043d\u0430 \u0444\u0440\u0430\u043d\u0448\u0438\u0437\u0430 \u0437 \u043f\u0430\u043a\u0435\u0442\u0430\u043c\u0438 \u0442\u0430 \u043f\u0440\u0438\u0445\u043e\u0432\u0430\u043d\u0438\u043c\u0438 \u043f\u043b\u0430\u0442\u0435\u0436\u0430\u043c\u0438 \u2014 \u0432\u0438 \u043f\u043b\u0430\u0442\u0438\u0442\u0435 \u0437\u0430 \u043a\u043e\u043d\u043a\u0440\u0435\u0442\u043d\u0435 \u043e\u0431\u043b\u0430\u0434\u043d\u0430\u043d\u043d\u044f \u0456 \u0441\u0435\u0440\u0432\u0456\u0441. \u041e\u043a\u0440\u0435\u043c\u043e \u0437\u0430\u0437\u0432\u0438\u0447\u0430\u0439 \u043b\u0438\u0448\u0430\u044e\u0442\u044c\u0441\u044f \u0442\u0456\u043b\u044c\u043a\u0438 \u0432\u0438\u0442\u0440\u0430\u0442\u0438, \u0449\u043e \u0437\u0430\u043b\u0435\u0436\u0430\u0442\u044c \u0432\u0456\u0434 \u0432\u0430\u0448\u043e\u0457 \u0441\u0438\u0442\u0443\u0430\u0446\u0456\u0457, \u043d\u0430\u043f\u0440\u0438\u043a\u043b\u0430\u0434 \u043e\u0440\u0435\u043d\u0434\u0430 \u043b\u043e\u043a\u0430\u0446\u0456\u0457 \u0430\u0431\u043e \u0435\u043b\u0435\u043a\u0442\u0440\u0438\u043a\u0430. \u0414\u0430\u043b\u0456 \u043b\u043e\u0433\u0456\u0447\u043d\u043e \u0430\u0431\u043e \u043f\u043e\u0434\u0438\u0432\u0438\u0442\u0438\u0441\u044f \u043e\u043a\u0443\u043f\u043d\u0456\u0441\u0442\u044c, \u0430\u0431\u043e \u043e\u0431\u0433\u043e\u0432\u043e\u0440\u0438\u0442\u0438 \u0432\u0430\u0448\u0443 \u043c\u0430\u0439\u0431\u0443\u0442\u043d\u044e \u043b\u043e\u043a\u0430\u0446\u0456\u044e."
def gold_UA_payback : String := "\u0426\u0435 \u0445\u043e\u0440\u043e\u0448\u0438\u0439 \u0437\u0430\u043f\u0438\u0442, \u0434\u0430\u0432\u0430\u0439\u0442\u0435 \u0434\u0435\u0442\u0430\u043b\u044c\u043d\u043e \u0440\u043e\u0437\u0431\u0435\u0440\u0435\u043c\u043e \u0446\u0435 \u043f\u0438\u0442\u0430\u043d\u043d\u044f. \u0423 \u0431\u0430\u0437\u043e\u0432\u0456\u0439 \u043c\u043e\u0434\u0435\u043b\u0456 Maison de Caf\u00e9 \u0441\u0435\u0440\u0435\u0434\u043d\u044f \u043c\u0430\u0440\u0436\u0430 \u0437 \u0447\u0430\u0448\u043a\u0438 \u2014 \u0431\u043b\u0438\u0437\u044c\u043a\u043e 1,8 \u20ac, \u0430 \u0442\u0438\u043f\u043e\u0432\u0438\u0439 \u043e\u0431\u0441\u044f\u0433 \u2014 \u043f\u0440\u0438\u0431\u043b\u0438\u0437\u043d\u043e 35 \u0447\u0430\u0448\u043e\u043a \u043d\u0430 \u0434\u0435\u043d\u044c. \u0426\u0435 \u0434\u0430\u0454 \u0432\u0430\u043b\u043e\u0432\u0443 \u043c\u0430\u0440\u0436\u0443 \u0431\u043b\u0438\u0437\u044c\u043a\u043e 1 900 \u20ac \u043d\u0430 \u043c\u0456\u0441\u044f\u0446\u044c, \u0437 \u044f\u043a\u043e\u0457 \u043f\u0456\u0441\u043b\u044f \u0441\u0442\u0430\u043d\u0434\u0430\u0440\u0442\u043d\u0438\u0445 \u0432\u0438\u0442\u0440\u0430\u0442 \u0447\u0430\u0441\u0442\u043e \u043b\u0438\u0448\u0430\u0454\u0442\u044c\u0441\u044f \u0431\u043b\u0438\u0437\u044c\u043a\u043e 1 200\u20131 300 \u20ac \u0447\u0438\u0441\u0442\u043e\u0433\u043e \u0440\u0435\u0437\u0443\u043b\u044c\u0442\u0430\u0442\u0443. \u0423 \u0441\u0435\u0440\u0435\u0434\u043d\u044c\u043e\u043c\u0443 \u043e\u043a\u0443\u043f\u043d\u0456\u0441\u0442\u044c \u0432\u0438\u0445\u043e\u0434\u0438\u0442\u044c \u0431\u043b\u0438\u0437\u044c\u043a\u043e 9\u201312 \u043c\u0456\u0441\u044f\u0446\u0456\u0432, \u0430\u043b\u0435 \u0440\u0435\u0430\u043b\u044c\u043d\u0438\u0439 \u0440\u0435\u0437\u0443\u043b\u044c\u0442\u0430\u0442 \u0437\u0430\u043b\u0435\u0436\u0438\u0442\u044c \u0432\u0456\u0434 \u043b\u043e\u043a\u0430\u0446\u0456\u0457 \u0456 \u043f\u043e\u0442\u043e\u043a\u0443 \u043b\u044e\u0434\u0435\u0439. \u041c\u043e\u0436\u0435\u043c\u043e \u0440\u043e\u0437\u0456\u0431\u0440\u0430\u0442\u0438 \u043a\u043e\u043d\u043a\u0440\u0435\u0442\u043d\u0435 \u043c\u0456\u0441\u0446\u0435 \u0430\u0431\u043e \u043f\u0435\u0440\u0435\u0439\u0442\u0438 \u0434\u043e \u0443\u043c\u043e\u0432 \u0441\u043f\u0456\u0432\u043f\u0440\u0430\u0446\u0456."
def gold_UA_terms : String := "\u0426\u0435 \u0445\u043e\u0440\u043e\u0448\u0438\u0439 \u0437\u0430\u043f\u0438\u0442, \u0434\u0430\u0432\u0430\u0439\u0442\u0435 \u0434\u0435\u0442\u0430\u043b\u044c\u043d\u043e \u0440\u043e\u0437\u0431\u0435\u0440\u0435\u043c\u043e \u0446\u0435 \u043f\u0438\u0442\u0430\u043d\u043d\u044f. Maison de Caf\u00e9 \u2014 \u0446\u0435 \u043d\u0435 \u043a\u043b\u0430\u0441\u0438\u0447\u043d\u0430 \u0444\u0440\u0430\u043d\u0448\u0438\u0437\u0430 \u0437 \u043f\u0430\u0443\u0448\u0430\u043b\u044c\u043d\u0438\u043c\u0438 \u0432\u043d\u0435\u0441\u043a\u0430\u043c\u0438 \u0442\u0430 \u0436\u043e\u0440\u0441\u0442\u043a\u0438\u043c\u0438 \u043f\u0440\u0430\u0432\u0438\u043b\u0430\u043c\u0438. \u0426\u0435 \u043f\u0430\u0440\u0442\u043d\u0435\u0440\u0441\u044c\u043a\u0430 \u043c\u043e\u0434\u0435\u043b\u044c: \u0432\u0438 \u0456\u043d\u0432\u0435\u0441\u0442\u0443\u0454\u0442\u0435 \u0432 \u043e\u0431\u043b\u0430\u0434\u043d\u0430\u043d\u043d\u044f \u0456 \u043a\u0435\u0440\u0443\u0454\u0442\u0435 \u0442\u043e\u0447\u043a\u043e\u044e, \u0430 \u043c\u0438 \u0437\u0430\u0431\u0435\u0437\u043f\u0435\u0447\u0443\u0454\u043c\u043e \u043f\u0440\u043e\u0434\u0443\u043a\u0442, \u0441\u0442\u0430\u043d\u0434\u0430\u0440\u0442\u0438 \u044f\u043a\u043e\u0441\u0442\u0456, \u043d\u0430\u0432\u0447\u0430\u043d\u043d\u044f \u0456 \u043f\u0456\u0434\u0442\u0440\u0438\u043c\u043a\u0443 \u043d\u0430 \u0441\u0442\u0430\u0440\u0442\u0456. \u0423 \u0432\u0430\u0441 \u0437\u0430\u043b\u0438\u0448\u0430\u0454\u0442\u044c\u0441\u044f \u0441\u0432\u043e\u0431\u043e\u0434\u0430 \u0443 \u0432\u0438\u0431\u043e\u0440\u0456 \u043b\u043e\u043a\u0430\u0446\u0456\u0457 \u0442\u0430 \u0443\u043f\u0440\u0430\u0432\u043b\u0456\u043d\u043d\u0456 \u0431\u0456\u0437\u043d\u0435\u0441\u043e\u043c. \u041c\u043e\u0436\u0435\u043c\u043e \u043e\u0431\u0433\u043e\u0432\u043e\u0440\u0438\u0442\u0438 \u0432\u0430\u0448\u0443 \u0456\u0434\u0435\u044e \u0430\u0431\u043e \u043f\u0435\u0440\u0435\u0439\u0442\u0438 \u0434\u043e \u043d\u0430\u0441\u0442\u0443\u043f\u043d\u043e\u0433\u043e \u043a\u0440\u043e\u043a\u0443."
def gold_UA_contacts : String := "\u0426\u0435 \u0445\u043e\u0440\u043e\u0448\u0438\u0439 \u0437\u0430\u043f\u0438\u0442, \u0434\u0430\u0432\u0430\u0439\u0442\u0435 \u0434\u0435\u0442\u0430\u043b\u044c\u043d\u043e \u0440\u043e\u0437\u0431\u0435\u0440\u0435\u043c\u043e \u0446\u0435 \u043f\u0438\u0442\u0430\u043d\u043d\u044f. \u042f\u043a\u0449\u043e \u0432\u0438 \u0434\u0456\u0439\u0448\u043b\u0438 \u0434\u043e \u0446\u044c\u043e\u0433\u043e \u0435\u0442\u0430\u043f\u0443 \u2014 \u0437\u043d\u0430\u0447\u0438\u0442\u044c \u0444\u043e\u0440\u043c\u0430\u0442 \u0432\u0430\u043c \u0441\u043f\u0440\u0430\u0432\u0434\u0456 \u0446\u0456\u043a\u0430\u0432\u0438\u0439. \u041d\u0430\u0439\u043a\u043e\u0440\u0438\u0441\u043d\u0456\u0448\u0438\u0439 \u043d\u0430\u0441\u0442\u0443\u043f\u043d\u0438\u0439 \u043a\u0440\u043e\u043a \u2014 \u043a\u043e\u0440\u043e\u0442\u043a\u043e \u043e\u0431\u0433\u043e\u0432\u043e\u0440\u0438\u0442\u0438 \u0432\u0430\u0448\u0443 \u0441\u0438\u0442\u0443\u0430\u0446\u0456\u044e: \u043b\u043e\u043a\u0430\u0446\u0456\u044e, \u0431\u044e\u0434\u0436\u0435\u0442 \u0456 \u043e\u0447\u0456\u043a\u0443\u0432\u0430\u043d\u043d\u044f. \u0422\u0430\u043a \u0441\u0442\u0430\u0454 \u0437\u0440\u043e\u0437\u0443\u043c\u0456\u043b\u043e, \u0447\u0438 \u043f\u0456\u0434\u0445\u043e\u0434\u0438\u0442\u044c Maison de Caf\u00e9 \u0441\u0430\u043c\u0435 \u0432\u0430\u043c, \u0431\u0435\u0437 \u0442\u0435\u043e\u0440\u0456\u0457 \u0456 \u0437\u0430\u0439\u0432\u0438\u0445 \u043e\u0431\u0456\u0446\u044f\u043d\u043e\u043a. \u041c\u043e\u0436\u0435\u043c\u043e \u0430\u0431\u043e \u0437\u0430\u043b\u0438\u0448\u0438\u0442\u0438 \u0437\u0430\u044f\u0432\u043a\u0443 \u0456 \u0440\u043e\u0437\u0456\u0431\u0440\u0430\u0442\u0438 \u0432\u0441\u0435 \u043f\u0435\u0440\u0441\u043e\u043d\u0430\u043b\u044c\u043d\u043e, \u0430\u0431\u043e \u043f\u043e\u0432\u0435\u0440\u043d\u0443\u0442\u0438\u0441\u044f \u0434\u043e \u0446\u0438\u0444\u0440 \u0456 \u0441\u043f\u043e\u043a\u0456\u0439\u043d\u043e \u043f\u0440\u043e\u0439\u0442\u0438\u0441\u044f \u043f\u043e \u043e\u043a\u0443\u043f\u043d\u043e\u0441\u0442\u0456."
def gold_EN_what : String := "That\u2019s a good question \u2014 it\u2019s usually how the conversation starts. Maison de Caf\u00e9 is a turnkey self-service coffee point in Belgium. You get a Jetinno JL-300 machine, a branded stand, a control system, and a starter set of ingredients, plus training and launch support. It\u2019s designed for a fast start without prior coffee-business experience and works without staff. Next, it makes sense to discuss either the opening cost or payback and real numbers."
def gold_EN_price : String := "That\u2019s a good question \u2014 let\u2019s break it down clearly. The base launch cost for a Maison de Caf\u00e9 point in Belgium is 9 800 \u20ac. It includes the Jetinno JL-300, branded stand, telemetry, starter ingredients, training, and full launch support. This is not a classic franchise with packages or hidden fees \u2014 you pay for specific equipment and service. Separate costs usually depend only on your situation, such as rent or electricity. Next, we can look at payback or discuss your future location."
def gold_EN_payback : String := "That\u2019s a good question \u2014 let\u2019s break it down clearly. In the base model, the average margin per cup is about 1.8 \u20ac, and a typical volume is around 35 cups/day. That\u2019s roughly 1 900 \u20ac gross margin per month, and after standard costs it often leaves around 1 200\u20131 300 \u20ac net. Average payback is about 9\u201312 months, but the real result always depends on location traffic. We can assess a specific location or move to partnership terms."
def gold_EN_terms : String := "That\u2019s a good question \u2014 let\u2019s break it down clearly. Maison de Caf\u00e9 is not a classic franchise with entry fees and rigid rules. It\u2019s a partnership model: you invest in the equipment and manage the point, and we provide product, quality standards, training, and launch support. You keep flexibility in choosing the location and running the business. We can discuss your idea or move to the next step."
def gold_EN_contacts : String := "That\u2019s a good question \u2014 let\u2019s break it down clearly. If you reached this point, the format is genuinely interesting for you. The most useful next step is a short talk about your situation: location, budget, and expectations. That\u2019s how we confirm fit without theory or empty promises. We can either submit a request and go personal, or return to the numbers and calmly review payback again."
def gold_FR_what : String := "C\u2019est une bonne question \u2014 c\u2019est souvent comme \u00e7a que la discussion commence. Maison de Caf\u00e9 est un point caf\u00e9 en libre-service \u00ab cl\u00e9 en main \u00bb en Belgique. Vous recevez une machine Jetinno JL-300, un stand de marque, un syst\u00e8me de contr\u00f4le et un kit de d\u00e9marrage d\u2019ingr\u00e9dients, ainsi que la formation et l\u2019accompagnement au lancement. Le format est pens\u00e9 pour d\u00e9marrer vite, sans exp\u00e9rience, et fonctionner sans personnel. Ensuite, il est logique de parler soit du co\u00fbt de lancement, soit de la rentabilit\u00e9 et des chiffres."
def gold_FR_price : String := "C\u2019est une bonne question \u2014 regardons-la clairement. Le co\u00fbt de base pour lancer un point Maison de Caf\u00e9 en Belgique est de 9 800 \u20ac. Cela inclut la Jetinno JL-300, le stand, la t\u00e9l\u00e9m\u00e9trie, le kit d\u2019ingr\u00e9dients, la formation et le lancement. Ce n\u2019est pas une franchise classique avec packs et frais cach\u00e9s \u2014 vous payez pour un \u00e9quipement et un service pr\u00e9cis. Les co\u00fbts s\u00e9par\u00e9s d\u00e9pendent g\u00e9n\u00e9ralement de votre situation (loyer, \u00e9lectricit\u00e9). Ensuite, on peut regarder la rentabilit\u00e9 ou discuter de votre futur emplacement."
def gold_FR_payback : String := "C\u2019est une bonne question \u2014 regardons-la clairement. Dans le mod\u00e8le de base, la marge moyenne par tasse est d\u2019environ 1,8 \u20ac, avec un volume \u0442\u0438\u043fique d\u2019environ 35 tasses/jour. Cela donne environ 1 900 \u20ac de marge brute par mois, et apr\u00e8s les co\u00fbts standards il reste souvent autour de 1 200\u20131 300 \u20ac net. Le retour sur investissement est en moyenne de 9\u201312 mois, mais le r\u00e9sultat d\u00e9pend du flux de l\u2019emplacement. On peut analyser un lieu pr\u00e9cis ou passer aux conditions de partenariat."
def gold_FR_terms : String := "C\u2019est une bonne question \u2014 regardons-la clairement. Maison de Caf\u00e9 n\u2019est pas une franchise classique avec droits d\u2019entr\u00e9e et r\u00e8gles rigides. C\u2019est un mod\u00e8le partenaire : vous investissez dans l\u2019\u00e9quipement et g\u00e9rez le point, et nous fournissons le produit, les standards qualit\u00e9, la formation et l\u2019accompagnement. Vous gardez de la flexibilit\u00e9 sur l\u2019emplacement et la gestion. On peut discuter de votre id\u00e9e ou passer \u00e0 la prochaine \u00e9tape."
def gold_FR_contacts : String := "C\u2019est une bonne question \u2014 regardons-la clairement. Si vous \u00eates arriv\u00e9 \u00e0 ce stade, c\u2019est que le format vous int\u00e9resse r\u00e9ellement. La prochaine \u00e9tape la plus utile est d\u2019\u00e9changer bri\u00e8vement sur votre situation : emplacement, budget et attentes. C\u2019est comme \u00e7a qu\u2019on valide l\u2019ad\u00e9quation sans th\u00e9orie ni promesses inutiles. On peut soit laisser une demande, soit revenir aux chiffres et revoir la rentabilit\u00e9 calmement."

-- keyword list in _looks_like_profit_question (duplicates kept as in source)
def profitKeys : List String := ["\u0441\u043a\u043e\u043b\u044c\u043a\u043e \u0437\u0430\u0440\u0430\u0431\u043e\u0442", "\u0441\u043a\u043e\u043b\u044c\u043a\u043e \u044f \u0431\u0443\u0434\u0443", "\u0441\u043a\u043e\u043b\u044c\u043a\u043e \u043f\u043e\u043b\u0443\u0447", "\u043f\u0440\u0438\u0431\u044b\u043b", "\u043f\u0440\u0438\u0431\u0443\u0442", "profit", "earn", "income", "rentab", "\u043e\u043a\u0443\u043f\u0438\u0442\u044c", "\u043e\u043a\u0443\u043f", "model", "\u0431\u0438\u0437\u043d\u0435\u0441-\u043c\u043e\u0434\u0435\u043b\u044c", "\u0441\u043a\u043e\u043b\u044c\u043a\u043e \u0432 \u043c\u0435\u0441\u044f\u0446", "\u0441\u043a\u043e\u043b\u044c\u043a\u043e \u0432 \u043c\u0435\u0441\u044f\u0446", "gross", "net"]

-- intent keyword lists in _final_safety_override, in source order
def priceIntentKeys : List String := ["\u0441\u043a\u043e\u043b\u044c\u043a\u043e", "\u0441\u043a\u0456\u043b\u044c\u043a\u0438", "cost", "prix", "\u0446\u0435\u043d\u0430", "\u0441\u0442\u043e\u0438\u043c"]
def paybackIntentKeys : List String := ["\u043e\u043a\u0443\u043f", "\u043e\u043a\u0443\u043f\u043d", "profit", "rentab", "\u043f\u0440\u0438\u0431\u044b\u043b", "\u043f\u0440\u0438\u0431\u0443\u0442"]
def termsIntentKeys : List String := ["\u0443\u0441\u043b\u043e\u0432", "\u0443\u043c\u043e\u0432", "terms", "\u043f\u0430\u0440\u0442\u043d\u0435\u0440", "franch"]

-- fail-safe texts in _assistant_draft (non-completed run / empty or missing answer)
def clarify_UA : String := "\u0420\u043e\u0437\u0443\u043c\u0456\u044e. \u0429\u043e\u0431 \u0432\u0456\u0434\u043f\u043e\u0432\u0456\u0441\u0442\u0438 \u0442\u043e\u0447\u043d\u043e: \u044f\u043a\u0430 \u043b\u043e\u043a\u0430\u0446\u0456\u044f (\u043c\u0456\u0441\u0442\u043e/\u0440\u0430\u0439\u043e\u043d) \u0456 \u044f\u043a\u0438\u0439 \u0442\u0438\u043f \u043c\u0456\u0441\u0446\u044f \u0432\u0438 \u0440\u043e\u0437\u0433\u043b\u044f\u0434\u0430\u0454\u0442\u0435?"
def clarify_EN : String := "Got it. To answer precisely: what city/area and what type of location is it?"
def clarify_FR : String := "Compris. Pour r\u00e9pondre pr\u00e9cis\u00e9ment : quelle ville/quartier et quel type d\u2019emplacement ?"
def clarify_RU : String := "\u041f\u043e\u043d\u044f\u043b. \u0427\u0442\u043e\u0431\u044b \u043e\u0442\u0432\u0435\u0442\u0438\u0442\u044c \u0442\u043e\u0447\u043d\u043e: \u043a\u0430\u043a\u0430\u044f \u043b\u043e\u043a\u0430\u0446\u0438\u044f (\u0433\u043e\u0440\u043e\u0434/\u0440\u0430\u0439\u043e\u043d) \u0438 \u043a\u0430\u043a\u043e\u0439 \u0442\u0438\u043f \u043c\u0435\u0441\u0442\u0430 \u0432\u044b \u0440\u0430\u0441\u0441\u043c\u0430\u0442\u0440\u0438\u0432\u0430\u0435\u0442\u0435?"
def draftFallback_RU : String := "\u041f\u043e\u043d\u044f\u043b. \u0423\u0442\u043e\u0447\u043d\u0438\u0442\u0435, \u043f\u043e\u0436\u0430\u043b\u0443\u0439\u0441\u0442\u0430, \u043f\u0430\u0440\u0443 \u0434\u0435\u0442\u0430\u043b\u0435\u0439 \u2014 \u0438 \u043f\u0440\u043e\u0434\u043e\u043b\u0436\u0438\u043c."

-- greeting texts in cmd_start
def start_UA : String := "\u041f\u0440\u0438\u0432\u0456\u0442! \u042f Max, \u043a\u043e\u043d\u0441\u0443\u043b\u044c\u0442\u0430\u043d\u0442 Maison de Caf\u00e9. \u041e\u0431\u0435\u0440\u0456\u0442\u044c \u043f\u0443\u043d\u043a\u0442 \u043c\u0435\u043d\u044e \u0430\u0431\u043e \u043d\u0430\u043f\u0438\u0448\u0456\u0442\u044c \u043f\u0438\u0442\u0430\u043d\u043d\u044f."
def start_RU : String := "\u041f\u0440\u0438\u0432\u0435\u0442! \u042f Max, \u043a\u043e\u043d\u0441\u0443\u043b\u044c\u0442\u0430\u043d\u0442 Maison de Caf\u00e9. \u0412\u044b\u0431\u0435\u0440\u0438\u0442\u0435 \u043f\u0443\u043d\u043a\u0442 \u043c\u0435\u043d\u044e \u0438\u043b\u0438 \u043d\u0430\u043f\u0438\u0448\u0438\u0442\u0435 \u0432\u043e\u043f\u0440\u043e\u0441."
def start_EN : String := "Hi! I\u2019m Max, Maison de Caf\u00e9 consultant. Choose a menu item or type your question."
def start_FR : String := "Bonjour ! Je suis Max, consultant Maison de Caf\u00e9. Choisissez un \u043f\u0443\u043d\u043a\u0442 du menu ou \u00e9crivez votre question."
def start_default : String := "\u041f\u0440\u0438\u0432\u0435\u0442!"
def profitAsk_UA : String := "\u0426\u0435 \u0445\u043e\u0440\u043e\u0448\u0438\u0439 \u0437\u0430\u043f\u0438\u0442, \u0434\u0430\u0432\u0430\u0439\u0442\u0435 \u0434\u0435\u0442\u0430\u043b\u044c\u043d\u043e \u0440\u043e\u0437\u0431\u0435\u0440\u0435\u043c\u043e \u0446\u0435 \u043f\u0438\u0442\u0430\u043d\u043d\u044f. \u0421\u043a\u0456\u043b\u044c\u043a\u0438 \u0447\u0430\u0448\u043e\u043a \u043d\u0430 \u0434\u0435\u043d\u044c \u0432\u0438 \u043f\u043b\u0430\u043d\u0443\u0454\u0442\u0435 \u043f\u0440\u043e\u0434\u0430\u0432\u0430\u0442\u0438 (\u0432\u0456\u0434 1 \u0434\u043e 200)? \u042f \u043f\u043e\u0440\u0430\u0445\u0443\u044e \u043c\u043e\u0434\u0435\u043b\u044c: 1,8 \u20ac \u043c\u0430\u0440\u0436\u0430 \u00d7 \u0447\u0430\u0448\u043a\u0438 \u00d7 30 \u0434\u043d\u0456\u0432 \u043c\u0456\u043d\u0443\u0441 \u0441\u0435\u0440\u0435\u0434\u043d\u0456 \u0432\u0438\u0442\u0440\u0430\u0442\u0438 450\u2013600 \u20ac."
def profitAsk_EN : String := "That\u2019s a good question \u2014 let\u2019s calculate it properly. How many cups per day do you expect (1 to 200)? I\u2019ll calculate: 1.8 \u20ac margin \u00d7 cups \u00d7 30 days minus typical monthly costs of 450\u2013600 \u20ac."
def profitAsk_FR : String := "Bonne question \u2014 calculons \u00e7a proprement. Combien de tasses par jour visez-vous (1 \u00e0 200) ? Je calcule : marge 1,8 \u20ac \u00d7 tasses \u00d7 30 jours moins les co\u00fbts mensuels moyens 450\u2013600 \u20ac."
def profitAsk_RU : String := "\u042d\u0442\u043e \u0445\u043e\u0440\u043e\u0448\u0438\u0439 \u0432\u043e\u043f\u0440\u043e\u0441, \u0434\u0430\u0432\u0430\u0439\u0442\u0435 \u0434\u0435\u0442\u0430\u043b\u044c\u043d\u043e \u0440\u0430\u0437\u0431\u0435\u0440\u0435\u043c \u044d\u0442\u043e\u0442 \u0432\u043e\u043f\u0440\u043e\u0441. \u0421\u043a\u043e\u043b\u044c\u043a\u043e \u0447\u0430\u0448\u0435\u043a \u0432 \u0434\u0435\u043d\u044c \u0432\u044b \u043f\u043b\u0430\u043d\u0438\u0440\u0443\u0435\u0442\u0435 \u043f\u0440\u043e\u0434\u0430\u0432\u0430\u0442\u044c (\u043e\u0442 1 \u0434\u043e 200)? \u042f \u043f\u043e\u0441\u0447\u0438\u0442\u0430\u044e \u043c\u043e\u0434\u0435\u043b\u044c: 1,8 \u20ac \u043c\u0430\u0440\u0436\u0430 \u00d7 \u0447\u0430\u0448\u043a\u0438 \u00d7 30 \u0434\u043d\u0435\u0439 \u043c\u0438\u043d\u0443\u0441 \u0441\u0440\u0435\u0434\u043d\u0438\u0435 \u0440\u0430\u0441\u0445\u043e\u0434\u044b 450\u2013600 \u20ac."

-- calculator reply templates in _profit_answer; f-string splices become ++
def profitCalc_UA (cups : ℕ) : String := "\u0426\u0435 \u0445\u043e\u0440\u043e\u0448\u0438\u0439 \u0437\u0430\u043f\u0438\u0442, \u0434\u0430\u0432\u0430\u0439\u0442\u0435 \u0434\u0435\u0442\u0430\u043b\u044c\u043d\u043e \u0440\u043e\u0437\u0431\u0435\u0440\u0435\u043c\u043e \u0446\u0435 \u043f\u0438\u0442\u0430\u043d\u043d\u044f. \u042f\u043a\u0449\u043e \u043f\u0440\u043e\u0434\u0430\u0432\u0430\u0442\u0438 " ++ Nat.repr cups ++ " \u0447\u0430\u0448\u043e\u043a \u043d\u0430 \u0434\u0435\u043d\u044c: 1,8 \u20ac \u00d7 " ++ Nat.repr cups ++ " \u00d7 30 = \u043f\u0440\u0438\u0431\u043b\u0438\u0437\u043d\u043e " ++ euro (grossScaled cups) ++ " \u0432\u0430\u043b\u043e\u0432\u043e\u0457 \u043c\u0430\u0440\u0436\u0456 \u043d\u0430 \u043c\u0456\u0441\u044f\u0446\u044c. \u041f\u0456\u0441\u043b\u044f \u0441\u0435\u0440\u0435\u0434\u043d\u0456\u0445 \u0432\u0438\u0442\u0440\u0430\u0442 450\u2013600 \u20ac \u0437\u0430\u043b\u0438\u0448\u0430\u0454\u0442\u044c\u0441\u044f \u043e\u0440\u0456\u0454\u043d\u0442\u043e\u0432\u043d\u043e " ++ euro (netLowScaled cups) ++ "\u2013" ++ euro (netHighScaled cups) ++ " \u043d\u0430 \u043c\u0456\u0441\u044f\u0446\u044c. \u042f\u043a\u0449\u043e \u0445\u043e\u0447\u0435\u0442\u0435 \u2014 \u0441\u043a\u0430\u0436\u0456\u0442\u044c \u043b\u043e\u043a\u0430\u0446\u0456\u044e (\u043c\u0456\u0441\u0442\u043e/\u0440\u0430\u0439\u043e\u043d) \u0456 \u044f \u043f\u0456\u0434\u043a\u0430\u0436\u0443, \u043d\u0430 \u0449\u043e \u0437\u0432\u0435\u0440\u043d\u0443\u0442\u0438 \u0443\u0432\u0430\u0433\u0443, \u0449\u043e\u0431 \u0446\u0456 \u0446\u0438\u0444\u0440\u0438 \u0431\u0443\u043b\u0438 \u0440\u0435\u0430\u043b\u0456\u0441\u0442\u0438\u0447\u043d\u0438\u043c\u0438."
def profitCalc_EN (cups : ℕ) : String := "That\u2019s a good question \u2014 let\u2019s calculate it properly. If you sell " ++ Nat.repr cups ++ " cups/day: 1.8 \u20ac \u00d7 " ++ Nat.repr cups ++ " \u00d7 30 \u2248 " ++ euro (grossScaled cups) ++ " gross margin/month. After typical costs of 450\u2013600 \u20ac, you\u2019re at roughly " ++ euro (netLowScaled cups) ++ "\u2013" ++ euro (netHighScaled cups) ++ " per month. If you share the city/area and location type, I\u2019ll help you sanity-check the assumptions."
def profitCalc_FR (cups : ℕ) : String := "Bonne question \u2014 calculons \u00e7a proprement. \u00c0 " ++ Nat.repr cups ++ " tasses/jour : 1,8 \u20ac \u00d7 " ++ Nat.repr cups ++ " \u00d7 30 \u2248 " ++ euro (grossScaled cups) ++ " de marge brute/mois. Apr\u00e8s des co\u00fbts moyens de 450\u2013600 \u20ac, il reste environ " ++ euro (netLowScaled cups) ++ "\u2013" ++ euro (netHighScaled cups) ++ " par mois. Si vous me dites la ville/quartier et le type d\u2019emplacement, je vous aide \u00e0 valider ces hypoth\u00e8ses."
def profitCalc_RU (cups : ℕ) : String := "\u042d\u0442\u043e \u0445\u043e\u0440\u043e\u0448\u0438\u0439 \u0432\u043e\u043f\u0440\u043e\u0441, \u0434\u0430\u0432\u0430\u0439\u0442\u0435 \u0434\u0435\u0442\u0430\u043b\u044c\u043d\u043e \u0440\u0430\u0437\u0431\u0435\u0440\u0435\u043c \u044d\u0442\u043e\u0442 \u0432\u043e\u043f\u0440\u043e\u0441. \u0415\u0441\u043b\u0438 \u043f\u0440\u043e\u0434\u0430\u0432\u0430\u0442\u044c " ++ Nat.repr cups ++ " \u0447\u0430\u0448\u0435\u043a \u0432 \u0434\u0435\u043d\u044c: 1,8 \u20ac \u00d7 " ++ Nat.repr cups ++ " \u00d7 30 = \u043f\u0440\u0438\u043c\u0435\u0440\u043d\u043e " ++ euro (grossScaled cups) ++ " \u0432\u0430\u043b\u043e\u0432\u043e\u0439 \u043c\u0430\u0440\u0436\u0438 \u0432 \u043c\u0435\u0441\u044f\u0446. \u041f\u043e\u0441\u043b\u0435 \u0441\u0440\u0435\u0434\u043d\u0438\u0445 \u0440\u0430\u0441\u0445\u043e\u0434\u043e\u0432 450\u2013600 \u20ac \u043e\u0441\u0442\u0430\u0451\u0442\u0441\u044f \u043e\u0440\u0438\u0435\u043d\u0442\u0438\u0440\u043e\u0432\u043e\u0447\u043d\u043e " ++ euro (netLowScaled cups) ++ "\u2013" ++ euro (netHighScaled cups) ++ " \u0432 \u043c\u0435\u0441\u044f\u0446. \u0415\u0441\u043b\u0438 \u0445\u043e\u0442\u0438\u0442\u0435 \u2014 \u0441\u043a\u0430\u0436\u0438\u0442\u0435 \u0433\u043e\u0440\u043e\u0434/\u0440\u0430\u0439\u043e\u043d \u0438 \u0442\u0438\u043f \u043b\u043e\u043a\u0430\u0446\u0438\u0438, \u0438 \u044f \u043f\u043e\u043c\u043e\u0433\u0443 \u043f\u0440\u043e\u0432\u0435\u0440\u0438\u0442\u044c \u0440\u0435\u0430\u043b\u0438\u0441\u0442\u0438\u0447\u043d\u043e\u0441\u0442\u044c \u044d\u0442\u0438\u0445 \u0446\u0438\u0444\u0440."

-- status text template in cmd_status
def statusText (numUsers numBlocked : ℕ) (assistantId maskedToken : String) : String := "Users: " ++ Nat.repr numUsers ++ "\nBlocked: " ++ Nat.repr numBlocked ++ "\nAssistant: " ++ assistantId ++ "\nToken: " ++ maskedToken

/- Regex pattern sources (modelled as token matchers in the main file):
   BANNED_PATTERNS: \b49\s*000\b ; \b55\s*000\b ; \b150\s*000\b ; \b1\s*500\s*[–-]\s*2\s*000\b ; \bпаушальн ; \bроялти\b
   _ALLOWED_NUMBER_PATTERNS: \b9\s*800\b ; \b9800\b ; \b1[\.,]8\b ; \b35\b ; \b1\s*900\b ; \b1900\b ; \b1\s*200\b ; \b1200\b ; \b1\s*300\b ; \b1300\b ; \b9\s*[–-]\s*12\b
-/

/-!
Regex modelling

The program uses a handful of small regular expressions.  They are modelled
by token lists: a token consumes a literal character, a character class
member, a (greedy) run of whitespace, or checks a word boundary.  In every
pattern of the program the token after `\s*` can never match a whitespace
character, so greedy matching without backtracking is exact.
-/

inductive Tok
  | ch (c : Char)
  | oneOf (cs : List Char)
  | ws
  | bound
deriving Repr

def isWordOpt : Option Char → Bool
  | some c => isWordChar c
  | none => false

/-- Match a token list at the start of `rest`, `prev` being the character
just before it (for `\b`).  Returns the last consumed character and the
remainder on success. -/
def matchToks : List Tok → Option Char → List Char → Option (Option Char × List Char)
  | [], prev, rest => some (prev, rest)
  | .bound :: ts, prev, rest =>
    if isWordOpt prev != isWordOpt rest.head? then matchToks ts prev rest else none
  | .ch c :: ts, _, rest =>
    match rest with
    | [] => none
    | x :: r => if x = c then matchToks ts (some x) r else none
  | .oneOf cs :: ts, _, rest =>
    match rest with
    | [] => none
    | x :: r => if cs.contains x then matchToks ts (some x) r else none
  | .ws :: ts, prev, rest =>
    let sp := rest.takeWhile isSpaceChar
    let r := rest.dropWhile isSpaceChar
    match sp.getLast? with
    | some c => matchToks ts (some c) r
    | none => matchToks ts prev r

/-- `re.search` for a token pattern: does it match at any position? -/
def searchToksFrom (toks : List Tok) : Option Char → List Char → Bool
  | prev, [] => (matchToks toks prev []).isSome
  | prev, c :: r =>
    (matchToks toks prev (c :: r)).isSome || searchToksFrom toks (some c) r

def searchToks (toks : List Tok) (l : List Char) : Bool := searchToksFrom toks none l

/-- `re.sub(pattern, "", text)`: delete all non-overlapping matches, scanning
left to right (fuel-based; every pattern of the program consumes at least one
character per match, and `fuel = length` suffices). -/
def subToksAux (toks : List Tok) : ℕ → Option Char → List Char → List Char
  | 0, _, l => l
  | _ + 1, _, [] => []
  | fuel + 1, prev, c :: r =>
    match matchToks toks prev (c :: r) with
    | some (lastC, rest) =>
      if rest.length < r.length + 1 then subToksAux toks fuel lastC rest
      else c :: subToksAux toks fuel (some c) r
    | none => c :: subToksAux toks fuel (some c) r

def subToks (toks : List Tok) (l : List Char) : List Char :=
  subToksAux toks l.length none l

/-!
`BANNED_PATTERNS` and `_ALLOWED_NUMBER_PATTERNS`
-/

/-- `r"\b49\s*000\b"` -/
def ban49000 : List Tok :=
  [.bound, .ch '4', .ch '9', .ws, .ch '0', .ch '0', .ch '0', .bound]

/-- `r"\b55\s*000\b"` -/
def ban55000 : List Tok :=
  [.bound, .ch '5', .ch '5', .ws, .ch '0', .ch '0', .ch '0', .bound]

/-- `r"\b150\s*000\b"` -/
def ban150000 : List Tok :=
  [.bound, .ch '1', .ch '5', .ch '0', .ws, .ch '0', .ch '0', .ch '0', .bound]

/-- `r"\b1\s*500\s*[–-]\s*2\s*000\b"` -/
def ban1500_2000 : List Tok :=
  [.bound, .ch '1', .ws, .ch '5', .ch '0', .ch '0', .ws, .oneOf ['–', '-'],
   .ws, .ch '2', .ws, .ch '0', .ch '0', .ch '0', .bound]

/-- `r"\bпаушальн"` -/
def banPaushaln : List Tok :=
  [.bound, .ch 'п', .ch 'а', .ch 'у', .ch 'ш', .ch 'а',
   .ch 'л', .ch 'ь', .ch 'н']

/-- `r"\bроялти\b"` -/
def banRoyalti : List Tok :=
  [.bound, .ch 'р', .ch 'о', .ch 'я', .ch 'л', .ch 'т',
   .ch 'и', .bound]

/-- `BANNED_PATTERNS`, in source order. -/
def bannedPatterns : List (List Tok) :=
  [ban49000, ban55000, ban150000, ban1500_2000, banPaushaln, banRoyalti]

/-- `_ALLOWED_NUMBER_PATTERNS`, in source order. -/
def allowedNumberPatterns : List (List Tok) :=
  [ [.bound, .ch '9', .ws, .ch '8', .ch '0', .ch '0', .bound],
    [.bound, .ch '9', .ch '8', .ch '0', .ch '0', .bound],
    [.bound, .ch '1', .oneOf ['.', ','], .ch '8', .bound],
    [.bound, .ch '3', .ch '5', .bound],
    [.bound, .ch '1', .ws, .ch '9', .ch '0', .ch '0', .bound],
    [.bound, .ch '1', .ch '9', .ch '0', .ch '0', .bound],
    [.bound, .ch '1', .ws, .ch '2', .ch '0', .ch '0', .bound],
    [.bound, .ch '1', .ch '2', .ch '0', .ch '0', .bound],
    [.bound, .ch '1', .ws, .ch '3', .ch '0', .ch '0', .bound],
    [.bound, .ch '1', .ch '3', .ch '0', .ch '0', .bound],
    [.bound, .ch '9', .ws, .oneOf ['–', '-'], .ws, .ch '1', .ch '2', .bound] ]

/-- `looks_like_legacy_franchise`: lowercase, then search every banned
pattern. -/
def looksLikeLegacyFranchise (text : String) : Bool :=
  let t := lowerList text.data
  bannedPatterns.any (fun p => searchToks p t)

/-- `_has_disallowed_numbers`: delete every allowed-number pattern, then
report whether any digit remains. -/
def hasDisallowedNumbers (text : String) : Bool :=
  let tmp := allowedNumberPatterns.foldl (fun acc p => subToks p acc) text.data
  tmp.any isDigitChar

/-!
Cups/day extraction (`_parse_cups_per_day`)

Source regexes:
* `r"(\d{1,3})\s*(?:чаш|cups|cup)\b"`
* `r"(\d{1,3})\s*(?:в\s*день|/day|per\s*day|на\s*день)\b"`
* fallback: `re.findall(r"\b(\d{1,3})\b", t)`, keep 1..200, stable-sort by
  `(0 if 10 <= x <= 120 else 1, abs(x - 35))` and take the first.
-/

/-- Take exactly `k` leading digits. -/
def takeDigits : ℕ → List Char → Option (List Char × List Char)
  | 0, rest => some ([], rest)
  | _ + 1, [] => none
  | k + 1, c :: r =>
    if isDigitChar c then (takeDigits k r).map (fun p => (c :: p.1, p.2)) else none

def digitsVal (l : List Char) : ℕ :=
  l.foldl (fun a c => 10 * a + (c.toNat - '0'.toNat)) 0

/-- `(?:чаш|cups|cup)\b`, in alternation order. -/
def unitAlts : List (List Tok) :=
  [ [.ch 'ч', .ch 'а', .ch 'ш', .bound],
    [.ch 'c', .ch 'u', .ch 'p', .ch 's', .bound],
    [.ch 'c', .ch 'u', .ch 'p', .bound] ]

/-- `(?:в\s*день|/day|per\s*day|на\s*день)\b`, in alternation order. -/
def dayAlts : List (List Tok) :=
  [ [.ch 'в', .ws, .ch 'д', .ch 'е', .ch 'н', .ch 'ь', .bound],
    [.ch '/', .ch 'd', .ch 'a', .ch 'y', .bound],
    [.ch 'p', .ch 'e', .ch 'r', .ws, .ch 'd', .ch 'a', .ch 'y', .bound],
    [.ch 'н', .ch 'а', .ws, .ch 'д', .ch 'е', .ch 'н', .ch 'ь', .bound] ]

/-- Try `(\d{1,3})\s*ALT` with exactly `k` digits at the current position. -/
def matchCupsAtK (alts : List (List Tok)) (k : ℕ) (l : List Char) : Option ℕ :=
  match takeDigits k l with
  | none => none
  | some (d, rest) =>
    let sp := rest.takeWhile isSpaceChar
    let rest₂ := rest.dropWhile isSpaceChar
    let prevC : Option Char :=
      match sp.getLast? with
      | some c => some c
      | none => d.getLast?
    if alts.any (fun t => (matchToks t prevC rest₂).isSome) then some (digitsVal d)
    else none

/-- Greedy `\d{1,3}`: try 3, then 2, then 1 digits (regex backtracking). -/
def matchCupsAt (alts : List (List Tok)) (l : List Char) : Option ℕ :=
  match matchCupsAtK alts 3 l with
  | some v => some v
  | none =>
    match matchCupsAtK alts 2 l with
    | some v => some v
    | none => matchCupsAtK alts 1 l

/-- `re.search`: leftmost position wins. -/
def searchCups (alts : List (List Tok)) : List Char → Option ℕ
  | [] => none
  | c :: r =>
    match matchCupsAt alts (c :: r) with
    | some v => some v
    | none => searchCups alts r

/-- `\b(\d{1,3})\b` match at the current position (with greedy backtracking
on the digit count). -/
def matchNumAtK (k : ℕ) (l : List Char) : Option (ℕ × Option Char × List Char) :=
  match takeDigits k l with
  | none => none
  | some (d, rest) =>
    if isWordOpt rest.head? then none
    else some (digitsVal d, d.getLast?, rest)

def matchNumAt (prev : Option Char) (l : List Char) : Option (ℕ × Option Char × List Char) :=
  if isWordOpt prev then none
  else
    match matchNumAtK 3 l with
    | some r => some r
    | none =>
      match matchNumAtK 2 l with
      | some r => some r
      | none => matchNumAtK 1 l

/-- `re.findall(r"\b(\d{1,3})\b", t)`: all non-overlapping matches, left to
right (fuel-based; each match consumes at least one character). -/
def findNumsAux : ℕ → Option Char → List Char → List ℕ
  | 0, _, _ => []
  | _ + 1, _, [] => []
  | fuel + 1, prev, c :: r =>
    match matchNumAt prev (c :: r) with
    | some (v, lastC, rest) => v :: findNumsAux fuel lastC rest
    | none => findNumsAux fuel (some c) r

def findNums (l : List Char) : List ℕ := findNumsAux l.length none l

/-- Sort key `(0 if 10 <= x <= 120 else 1, abs(x - 35))`. -/
def keyPref (n : ℕ) : ℕ := if 10 ≤ n ∧ n ≤ 120 then 0 else 1

def keyDist (n : ℕ) : ℕ := ((n : ℤ) - 35).natAbs

/-- Strict lexicographic comparison of the sort keys. -/
def keyLt (a b : ℕ) : Bool :=
  decide (keyPref a < keyPref b) ||
  (decide (keyPref a = keyPref b) && decide (keyDist a < keyDist b))

/-- One step of the stable-minimum fold: replace the current best only on a
strictly smaller key (ties keep the earlier element, as a stable sort does). -/
def pickStep (acc : Option ℕ) (n : ℕ) : Option ℕ :=
  match acc with
  | none => some n
  | some m => if keyLt n m then some n else acc

/-- `nums.sort(key=...)` is stable, and `nums[0]` of the sorted list is the
earliest element with lexicographically minimal key; computed by a fold. -/
def pickCups (l : List ℕ) : Option ℕ := l.foldl pickStep none

/-- `_parse_cups_per_day`. -/
def parseCupsPerDay (text : String) : Option ℕ :=
  if text.data = [] then none
  else
    let t := lowerList text.data
    match searchCups unitAlts t with
    | some v => if 1 ≤ v ∧ v ≤ 200 then some v else none
    | none =>
      match searchCups dayAlts t with
      | some v => if 1 ≤ v ∧ v ≤ 200 then some v else none
      | none =>
        let nums := (findNums t).filter (fun n => decide (1 ≤ n ∧ n ≤ 200))
        pickCups nums

/-- Modelled from the words of the spec, for comparison only: the fallback is
claimed to take "the first in-range number" of the text. -/
def specFirstInRangeNumber (text : String) : Option ℕ :=
  ((findNums (lowerList text.data)).filter (fun n => decide (1 ≤ n ∧ n ≤ 200))).head?

/-- `_looks_like_profit_question`. -/
def looksLikeProfitQuestion (text : String) : Bool :=
  if text.data = [] then false
  else
    let t := lowerList text.data
    profitKeys.any (fun k => containsSub t k.data)

/-!
Language dispatch, gold answers, menus, contacts
-/

/-- `LANGS` in the source. -/
def LANGS_L : List String := ["UA", "RU", "EN", "FR"]

/-- Keys of the `GOLD` dict, in insertion order. -/
def goldLangs : List String := ["RU", "UA", "EN", "FR"]

/-- `gold_lang`: `lang if lang in GOLD else "RU"`. -/
def goldLang (lang : String) : String :=
  if goldLangs.contains lang then lang else "RU"

/-- The `GOLD` table (per language, key order as in the source dict). -/
def goldTable (lang : String) : List (String × String) :=
  if lang = "RU" then
    [("what", gold_RU_what), ("price", gold_RU_price), ("payback", gold_RU_payback),
     ("terms", gold_RU_terms), ("contacts", gold_RU_contacts)]
  else if lang = "UA" then
    [("what", gold_UA_what), ("price", gold_UA_price), ("payback", gold_UA_payback),
     ("terms", gold_UA_terms), ("contacts", gold_UA_contacts)]
  else if lang = "EN" then
    [("what", gold_EN_what), ("price", gold_EN_price), ("payback", gold_EN_payback),
     ("terms", gold_EN_terms), ("contacts", gold_EN_contacts)]
  else if lang = "FR" then
    [("what", gold_FR_what), ("price", gold_FR_price), ("payback", gold_FR_payback),
     ("terms", gold_FR_terms), ("contacts", gold_FR_contacts)]
  else []

/-- `GOLD[lang][key]` (the program only ever looks up existing keys; the
`""` default marks the impossible case). -/
def goldAnswer (lang key : String) : String :=
  match (goldTable lang).find? (fun kv => kv.1 == key) with
  | some kv => kv.2
  | none => ""

/-- `MENU_LABELS.get(lang, MENU_LABELS["RU"])`. -/
def menuTable (lang : String) : List (String × String) :=
  if lang = "UA" then menuTableUA
  else if lang = "RU" then menuTableRU
  else if lang = "EN" then menuTableEN
  else if lang = "FR" then menuTableFR
  else menuTableRU

def menuLabelsOf (lang : String) : List String := (menuTable lang).map Prod.snd

/-- `L[key]` lookup used by `reply_menu`. -/
def menuLabel (lang key : String) : String :=
  match (menuTable lang).find? (fun kv => kv.1 == key) with
  | some kv => kv.2
  | none => ""

/-- `_match_menu_key`: first table entry whose label equals the text. -/
def matchMenuKey (lang text : String) : Option String :=
  ((menuTable lang).find? (fun kv => text == kv.2)).map Prod.fst

/-- The keyboard rows built by `reply_menu`. -/
def replyMenuKeyboard (lang : String) : List (List String) :=
  [[menuLabel lang "what"], [menuLabel lang "price"], [menuLabel lang "payback"],
   [menuLabel lang "terms"], [menuLabel lang "presentation"],
   [menuLabel lang "contacts"], [menuLabel lang "lead", menuLabel lang "lang"]]

/-- `CONTACTS_TEXT.get(u.lang, CONTACTS_TEXT["RU"])`. -/
def contactsTextOf (lang : String) : String :=
  if lang = "UA" then contacts_UA
  else if lang = "RU" then contacts_RU
  else if lang = "EN" then contacts_EN
  else if lang = "FR" then contacts_FR
  else contacts_RU

/-- `_profit_answer` (the full localized reply strings). -/
def profitAnswer (lang : String) (cups : Option ℕ) : String :=
  let gl := goldLang lang
  match cups with
  | none =>
    if gl = "UA" then profitAsk_UA
    else if gl = "EN" then profitAsk_EN
    else if gl = "FR" then profitAsk_FR
    else profitAsk_RU
  | some c =>
    if gl = "UA" then profitCalc_UA c
    else if gl = "EN" then profitCalc_EN c
    else if gl = "FR" then profitCalc_FR c
    else profitCalc_RU c

/-- The fixed clarifying question `_assistant_draft` returns when the run
does not complete. -/
def clarifyFallback (lang : String) : String :=
  let gl := goldLang lang
  if gl = "UA" then clarify_UA
  else if gl = "EN" then clarify_EN
  else if gl = "FR" then clarify_FR
  else clarify_RU

/-- `_final_safety_override`. -/
def finalSafetyOverride (question answer lang : String) : String :=
  if answer = "" then goldAnswer (goldLang lang) "what"
  else if looksLikeLegacyFranchise answer || hasDisallowedNumbers answer then
    let gl := goldLang lang
    let q := lowerList question.data
    if priceIntentKeys.any (fun w => containsSub q w.data) then goldAnswer gl "price"
    else if paybackIntentKeys.any (fun w => containsSub q w.data) then goldAnswer gl "payback"
    else if termsIntentKeys.any (fun w => containsSub q w.data) then goldAnswer gl "terms"
    else goldAnswer gl "what"
  else answer

/-!
The LLM answer pipeline

External calls are modelled by an oracle; a `.error` value is a raised
exception of the underlying API call.  Thread creation and message posting
are folded into `createMsg`; `createRun` yields the initial run status;
`polls` yields the statuses returned by successive `runs.retrieve` calls
(the list length playing the role of the 45 s deadline); `msgs` is the
`messages.list` result; `verify` is the verifier chat-completion content.
-/

structure AMsg where
  role : String
  content : List (String × String)
deriving Repr

structure AsstOracle where
  createMsg : Except String Unit
  createRun : Except String String
  polls : List (Except String String)
  msgs : Except String (List AMsg)
  verify : Except String String

/-- The polling loop of `_assistant_draft`: keep retrieving until a terminal
status appears; when the deadline (list) is exhausted the run object keeps
its initial status. -/
def pollLoop (init : String) : List (Except String String) → Except String String
  | [] => .ok init
  | .error e :: _ => .error e
  | .ok st :: rest =>
    if st = "completed" ∨ st = "failed" ∨ st = "cancelled" ∨ st = "expired" then .ok st
    else pollLoop init rest

def runFinalStatus (o : AsstOracle) : Except String String :=
  match o.createRun with
  | .error e => .error e
  | .ok init => pollLoop init o.polls

/-- Text parts of a message: `[c.text.value for c in m.content if c.type == "text"]`
joined with newlines. -/
def joinTextParts (m : AMsg) : String :=
  String.intercalate "\n" ((m.content.filter (fun p => p.1 == "text")).map Prod.snd)

/-- First message with role `"assistant"` in the listing. -/
def firstAssistant (ms : List AMsg) : Option AMsg :=
  ms.find? (fun m => m.role == "assistant")

/-- `_assistant_draft`. -/
def assistantDraft (o : AsstOracle) (lang : String) : Except String String :=
  match o.createMsg with
  | .error e => .error e
  | .ok _ =>
    match runFinalStatus o with
    | .error e => .error e
    | .ok st =>
      if st ≠ "completed" then .ok (clarifyFallback lang)
      else
        match o.msgs with
        | .error e => .error e
        | .ok ms =>
          match firstAssistant ms with
          | some m =>
            let ans := pyStrip (joinTextParts m)
            .ok (if ans = "" then draftFallback_RU else ans)
          | none => .ok draftFallback_RU

/-- `_verify_and_fix`: exceptions are caught and return the draft; an empty
(stripped) verifier output also returns the draft. -/
def verifyFix (o : AsstOracle) (draft : String) : String :=
  match o.verify with
  | .error _ => draft
  | .ok content =>
    let out := pyStrip content
    if out = "" then draft else out

/-- `ask_assistant`; the `Bool` component records whether the LLM pipeline
(as opposed to the deterministic calculator bypass) produced the answer. -/
def askAssistantR (o : AsstOracle) (userText lang : String) :
    Except String (String × Bool) :=
  if looksLikeProfitQuestion userText then
    .ok (profitAnswer lang (parseCupsPerDay userText), false)
  else
    match assistantDraft o lang with
    | .error e => .error e
    | .ok draft => .ok (finalSafetyOverride userText (verifyFix o draft) lang, true)

/-!
Handlers
-/

/-- `cmd_start` greeting: `{...}.get(u.lang, "Привет!")`. -/
def startMsg (lang : String) : String :=
  if lang = "UA" then start_UA
  else if lang = "RU" then start_RU
  else if lang = "EN" then start_EN
  else if lang = "FR" then start_FR
  else start_default

/-- Replies sent by `cmd_start`.  The source performs no block-list check
here, hence the `blocked` parameter is (faithfully) unused. -/
def cmdStartOutputs (blocked : List String) (uid lang : String) : List String :=
  [startMsg lang]

/-- Replies sent by `cmd_status` (owner gating, no block-list check). -/
def cmdStatusOutputs (owner uid : String) (numUsers numBlocked : ℕ)
    (assistantId maskedToken : String) : List String :=
  if owner ≠ "" ∧ uid ≠ owner then []
  else [statusText numUsers numBlocked assistantId maskedToken]

inductive CbOut
  | ack
  | confirmReply
deriving Repr, DecidableEq

/-- `on_lang_callback`: `q.answer()` is sent first, the block list is only
checked afterwards. -/
def onLangCallbackOutputs (blocked : List String) (uid data : String) : List CbOut :=
  CbOut.ack ::
    (if blocked.contains uid then []
     else if !(data.startsWith "l:") then []
     else [CbOut.confirmReply])

/-- What `on_message` does with an update (dispatch outcome). -/
inductive Action
  | ignored
  | voiceFlow
  | langPicker
  | presentationFlow
  | goldReply (key : String)
  | leadPrompt
  | freeTextLLM (text : String)
deriving Repr, DecidableEq

/-- `on_message` dispatch. -/
def onMessageAction (blocked : List String) (uid lang : String)
    (isVoice : Bool) (rawText : String) : Action :=
  if blocked.contains uid then .ignored
  else if isVoice then .voiceFlow
  else
    let t := pyStrip rawText
    if t = "" then .ignored
    else
      match matchMenuKey lang t with
      | some k =>
        if k = "lang" then .langPicker
        else if k = "presentation" then .presentationFlow
        else if k = "what" ∨ k = "price" ∨ k = "payback" ∨ k = "terms" ∨ k = "contacts" then
          .goldReply k
        else if k = "lead" then .leadPrompt
        else .freeTextLLM t
      | none => .freeTextLLM t

/-!
Spam / gibberish guard (spec-modelled)

`src/bot.py` (this revision) contains no spam guard; other revisions of the
repository do, and the spec documents it in §4.2.  The guard and its router
integration are therefore modelled from the spec.
-/

/-- Split into whitespace-separated words (accumulator-based). -/
def wordsOfGo : List Char → List Char → List (List Char)
  | cur, [] => if cur = [] then [] else [cur.reverse]
  | cur, c :: r =>
    if isSpaceChar c then
      (if cur = [] then wordsOfGo [] r else cur.reverse :: wordsOfGo [] r)
    else wordsOfGo (c :: cur) r

def wordsOf (l : List Char) : List (List Char) := wordsOfGo [] l

def countAlnum (l : List Char) : ℕ := l.countP isAlnumChar

/-- A single character repeated over the whole string, length ≥ 7. -/
def isRepeatRun (l : List Char) : Bool :=
  match l with
  | [] => false
  | c :: r => decide (6 ≤ r.length) && r.all (fun x => x == c)

/-- Modelled from the spec: §4.2 spam/gibberish guard — reject when the
trimmed text has length ≤ 2, or is a single character repeated ≥ 7 times, or
(length ≥ 5) has < 15% alphanumeric characters. -/
def isSpamSpec (text : String) : Bool :=
  let t := trimChars text.data
  if t.length ≤ 2 then true
  else if isRepeatRun t then true
  else if 5 ≤ t.length ∧ 100 * countAlnum t < 15 * t.length then true
  else false

inductive SpecRoute
  | menu (k : String)
  | spamReject
  | llm
deriving Repr, DecidableEq

/-- Modelled from the spec: §4.1/§4.2 routing — menu labels first, then the
spam guard on the free-text path (reject sends the fixed "please ask
something specific" message and does not invoke the LLM). -/
def routeSpec (lang text : String) : SpecRoute :=
  match matchMenuKey lang (pyStrip text) with
  | some k => .menu k
  | none => if isSpamSpec text then .spamReject else .llm

/-!
Lead-form state machine (spec-modelled)

`src/bot.py` (this revision) only prompts on the lead button; the multi-step
collector exists in other revisions of the repository and is specified in
§4.4: `None → Name → Phone → Email → Message → (terminal, back to None)`,
each step consuming the next user text verbatim, the terminal step sending
exactly one operator notification and resetting the form regardless of
delivery outcome.
-/

inductive LeadStep
  | none
  | name
  | phone
  | email
  | message
deriving Repr, DecidableEq

structure LeadFormSt where
  step : LeadStep
  name : String
  phone : String
  email : String
  msg : String
deriving Repr, DecidableEq

structure LeadNotif where
  name : String
  phone : String
  email : String
  msg : String
  uid : String
deriving Repr, DecidableEq

def leadInit : LeadFormSt := ⟨.none, "", "", "", ""⟩

/-- Modelled from the spec: pressing the lead button starts the form. -/
def leadPress (_s : LeadFormSt) : LeadFormSt :=
  { leadInit with step := .name }

/-- Modelled from the spec: one lead-form step.  `deliveryOk` is the outcome
of the operator notification; the reset does not depend on it. -/
def leadStepInput (uid : String) (deliveryOk : Bool) (s : LeadFormSt)
    (text : String) : LeadFormSt × List LeadNotif :=
  match s.step with
  | .none => (s, [])
  | .name => ({ s with step := .phone, name := text }, [])
  | .phone => ({ s with step := .email, phone := text }, [])
  | .email => ({ s with step := .message, email := text }, [])
  | .message => (leadInit, [⟨s.name, s.phone, s.email, text, uid⟩])

/-- Run a sequence of user texts through the form, collecting notifications. -/
def runLead (uid : String) (deliveryOk : Bool) :
    List String → LeadFormSt → LeadFormSt × List LeadNotif
  | [], s => (s, [])
  | t :: ts, s =>
    let (s', ns) := leadStepInput uid deliveryOk s t
    let (s'', ns') := runLead uid deliveryOk ts s'
    (s'', ns ++ ns')

/-- Linear position of a step. -/
def stepIdx : LeadStep → ℕ
  | .none => 0
  | .name => 1
  | .phone => 2
  | .email => 3
  | .message => 4

/-- States reachable from the initial state by button presses and texts. -/
inductive ReachableLead : LeadFormSt → Prop
  | init : ReachableLead leadInit
  | press {s} : ReachableLead s → ReachableLead (leadPress s)
  | input {s} (uid : String) (ok : Bool) (t : String) :
      ReachableLead s → ReachableLead (leadStepInput uid ok s t).1

/-!
Auxiliary definitions used by the verification
-/

deriving instance DecidableEq for Except

/-- Does the list consist of a single repeated character (or nothing)? -/
def allSameB (l : List Char) : Bool :=
  match l with
  | [] => true
  | c :: r => r.all (fun x => x == c)

/-- An oracle for a healthy collaborator exchange whose verifier call raises
(the exception is caught by `_verify_and_fix`). -/
def oracleStub : AsstOracle :=
  ⟨.ok (), .ok "queued", [.ok "completed"],
   .ok [⟨"assistant", [("text", "ok")]⟩], .error "nope"⟩

/-- An oracle whose very first API call (posting the user message) raises. -/
def oracleErr : AsstOracle :=
  ⟨.error "boom", .ok "queued", [], .ok [], .ok "x"⟩

/-- An oracle for a fully healthy exchange. -/
def oracleOk : AsstOracle :=
  ⟨.ok (), .ok "queued", [.ok "completed"],
   .ok [⟨"assistant", [("text", "Fine, tell me more.")]⟩],
   .ok "Sure, tell me your location."⟩

/-- The gold answers reachable from `_final_safety_override` for a given
language table. -/
def goldFallbackSet (gl : String) : List String :=
  [goldAnswer gl "price", goldAnswer gl "payback", goldAnswer gl "terms",
   goldAnswer gl "what"]

/-!
Helper lemmas
-/

theorem isPrefixOf_append (n t : List Char) : n.isPrefixOf (n ++ t) = true := by
  induction n with
  | nil => simp [List.isPrefixOf]
  | cons c r ih => simp [List.isPrefixOf, ih]

theorem containsSub_here (n t : List Char) : containsSub (n ++ t) n = true := by
  unfold containsSub
  simp [isPrefixOf_append]

theorem containsSub_skip (a : List Char) {h n : List Char}
    (hc : containsSub h n = true) : containsSub (a ++ h) n = true := by
  induction a with
  | nil => simpa using hc
  | cons c r ih =>
    rw [List.cons_append]
    unfold containsSub
    simp [ih]

theorem string_ne_empty_iff (s : String) : s ≠ "" ↔ s.data ≠ [] := by
  constructor
  · intro h hd
    exact h (String.ext hd)
  · intro h he
    exact h (by rw [he])

theorem append_ne_empty_left (a b : String) (h : a ≠ "") : a ++ b ≠ "" := by
  rw [string_ne_empty_iff] at h ⊢
  rw [String.data_append]
  intro hnil
  exact h (List.append_eq_nil.mp hnil).1

theorem keyLt_iff {a b : ℕ} :
    keyLt a b = true ↔
      (keyPref a < keyPref b ∨ (keyPref a = keyPref b ∧ keyDist a < keyDist b)) := by
  simp [keyLt]

theorem keyLt_false_iff {a b : ℕ} :
    keyLt a b = false ↔
      ¬(keyPref a < keyPref b ∨ (keyPref a = keyPref b ∧ keyDist a < keyDist b)) := by
  rw [← keyLt_iff]
  cases keyLt a b <;> simp

theorem keyLt_irrefl (a : ℕ) : keyLt a a = false := by
  rw [keyLt_false_iff]; omega

theorem keyLt_ff_trans {a b c : ℕ} (h1 : keyLt a b = false)
    (h2 : keyLt b c = false) : keyLt a c = false := by
  rw [keyLt_false_iff] at *
  omega

theorem keyLt_tf {a b m : ℕ} (h1 : keyLt a b = true)
    (h2 : keyLt a m = false) : keyLt b m = false := by
  rw [keyLt_iff] at h1
  rw [keyLt_false_iff] at *
  omega

theorem foldl_pickStep_mem :
    ∀ (l : List ℕ) (acc : Option ℕ) (m : ℕ),
      l.foldl pickStep acc = some m → acc = some m ∨ m ∈ l := by
  intro l
  induction l with
  | nil => intro acc m h; exact Or.inl h
  | cons n l' ih =>
    intro acc m h
    rcases ih (pickStep acc n) m h with h1 | h2
    · cases acc with
      | none =>
        simp only [pickStep] at h1
        exact Or.inr (by simp [Option.some.inj h1])
      | some k =>
        by_cases hk : keyLt n k = true
        · simp only [pickStep, hk, if_true] at h1
          exact Or.inr (by simp [Option.some.inj h1])
        · simp only [pickStep, hk, if_false] at h1
          exact Or.inl h1
    · exact Or.inr (List.mem_cons_of_mem _ h2)

theorem foldl_pickStep_min :
    ∀ (l : List ℕ) (acc : Option ℕ) (m : ℕ),
      l.foldl pickStep acc = some m →
        (∀ n ∈ l, keyLt n m = false) ∧ (∀ k, acc = some k → keyLt k m = false) := by
  intro l
  induction l with
  | nil =>
    intro acc m h
    refine ⟨by simp, ?_⟩
    intro k hk
    rw [hk] at h
    obtain rfl : k = m := Option.some.inj h
    exact keyLt_irrefl k
  | cons n l' ih =>
    intro acc m h
    obtain ⟨hall, hacc⟩ := ih (pickStep acc n) m h
    have hn : keyLt n m = false := by
      cases acc with
      | none => exact hacc n rfl
      | some k =>
        by_cases hk : keyLt n k = true
        · exact hacc n (by simp [pickStep, hk])
        · have hkm := hacc k (by simp [pickStep, hk])
          have hnk : keyLt n k = false := by
            cases hx : keyLt n k
            · rfl
            · exact absurd hx hk
          exact keyLt_ff_trans hnk hkm
    refine ⟨?_, ?_⟩
    · intro x hx
      rcases List.mem_cons.mp hx with rfl | hx'
      · exact hn
      · exact hall x hx'
    · intro k hk
      cases acc with
      | none => cases hk
      | some j =>
        obtain rfl : j = k := Option.some.inj hk
        by_cases hnj : keyLt n j = true
        · have hnm := hacc n (by simp [pickStep, hnj])
          exact keyLt_tf hnj hnm
        · exact hacc j (by simp [pickStep, hnj])

theorem pickCups_mem {l : List ℕ} {m : ℕ} (h : pickCups l = some m) : m ∈ l := by
  rcases foldl_pickStep_mem l none m h with h1 | h2
  · cases h1
  · exact h2

theorem pickCups_min {l : List ℕ} {m : ℕ} (h : pickCups l = some m) :
    ∀ n ∈ l, keyLt n m = false :=
  (foldl_pickStep_min l none m h).1

theorem goldLang_cases (lang : String) :
    goldLang lang = "RU" ∨ goldLang lang = "UA" ∨ goldLang lang = "EN" ∨
      goldLang lang = "FR" := by
  unfold goldLang
  by_cases h : goldLangs.contains lang = true
  · rw [if_pos h]
    have hm : lang ∈ goldLangs := List.elem_iff.mp h
    fin_cases hm <;> simp
  · rw [if_neg h]
    exact Or.inl rfl

theorem goldAnswer_ne_empty (lang k : String)
    (hk : k ∈ ["what", "price", "payback", "terms", "contacts"]) :
    goldAnswer (goldLang lang) k ≠ "" := by
  rcases goldLang_cases lang with h | h | h | h <;> rw [h] <;> fin_cases hk <;> decide

theorem clarifyFallback_ne_empty (lang : String) : clarifyFallback lang ≠ "" := by
  unfold clarifyFallback
  rcases goldLang_cases lang with h | h | h | h <;> rw [h] <;> decide

theorem profitAnswer_ne_empty (lang : String) (c : Option ℕ) :
    profitAnswer lang c ≠ "" := by
  unfold profitAnswer
  rcases goldLang_cases lang with h | h | h | h <;> rw [h] <;> cases c <;>
    simp only [profitCalc_UA, profitCalc_EN, profitCalc_FR, profitCalc_RU] <;>
    first
      | decide
      | (repeat apply append_ne_empty_left); decide

theorem menuTable_cases (lang : String) :
    menuTable lang = menuTableUA ∨ menuTable lang = menuTableRU ∨
      menuTable lang = menuTableEN ∨ menuTable lang = menuTableFR := by
  unfold menuTable
  split_ifs <;> tauto

theorem labels_not_allSame :
    ∀ tb ∈ [menuTableUA, menuTableRU, menuTableEN, menuTableFR],
      ∀ kv ∈ tb, allSameB (kv.2 : String).data = false := by decide

theorem mk_not_label_of_allSame (lang : String) (l : List Char)
    (hs : allSameB l = true) : String.mk l ∉ menuLabelsOf lang := by
  intro hmem
  have hget : ∃ tb ∈ [menuTableUA, menuTableRU, menuTableEN, menuTableFR],
      menuTable lang = tb := by
    rcases menuTable_cases lang with h | h | h | h
    · exact ⟨menuTableUA, by simp, h⟩
    · exact ⟨menuTableRU, by simp, h⟩
    · exact ⟨menuTableEN, by simp, h⟩
    · exact ⟨menuTableFR, by simp, h⟩
  obtain ⟨tb, htb, heq⟩ := hget
  rw [menuLabelsOf, heq] at hmem
  obtain ⟨kv, hkv, hlab⟩ := List.mem_map.mp hmem
  have hd : (kv.2 : String).data = l := by
    rw [hlab]
  have hfalse := labels_not_allSame tb htb kv hkv
  rw [hd, hs] at hfalse
  cases hfalse

theorem matchMenuKey_eq_none_of_not_mem (lang t : String)
    (h : t ∉ menuLabelsOf lang) : matchMenuKey lang t = none := by
  unfold matchMenuKey
  have hfind : (menuTable lang).find? (fun kv => t == kv.2) = none := by
    rw [List.find?_eq_none]
    intro kv hkv hb
    exact h (List.mem_map.mpr ⟨kv, hkv, (eq_of_beq hb).symm⟩)
  rw [hfind]
  rfl

theorem allSameB_replicate (n : ℕ) (c : Char) :
    allSameB (List.replicate n c) = true := by
  cases n with
  | zero => rfl
  | succ m =>
    simp [allSameB, List.replicate_succ, List.all_eq_true, List.mem_replicate]

theorem dropWhile_replicate_of_pos {p : Char → Bool} {c : Char}
    (h : p c = true) (n : ℕ) : List.dropWhile p (List.replicate n c) = [] := by
  induction n with
  | zero => rfl
  | succ m ih => simp [List.replicate_succ, List.dropWhile_cons, h, ih]

theorem dropWhile_replicate_of_neg {p : Char → Bool} {c : Char}
    (h : p c = false) (n : ℕ) :
    List.dropWhile p (List.replicate n c) = List.replicate n c := by
  cases n with
  | zero => rfl
  | succ m => simp [List.replicate_succ, List.dropWhile_cons, h]

theorem trimChars_replicate_space {c : Char} (h : isSpaceChar c = true) (n : ℕ) :
    trimChars (List.replicate n c) = [] := by
  simp [trimChars, dropWhile_replicate_of_pos h]

theorem trimChars_replicate_nonspace {c : Char} (h : isSpaceChar c = false)
    (n : ℕ) : trimChars (List.replicate n c) = List.replicate n c := by
  simp [trimChars, dropWhile_replicate_of_neg h, List.reverse_replicate]

theorem wordsOfGo_len_le : ∀ (r cur : List Char),
    2 * (wordsOfGo cur r).length ≤ r.length + 1 + (if cur = [] then 0 else 1) := by
  intro r
  induction r with
  | nil =>
    intro cur
    by_cases hc : cur = [] <;> simp [wordsOfGo, hc]
  | cons c r ih =>
    intro cur
    by_cases hsp : isSpaceChar c = true
    · by_cases hc : cur = []
      · have h0 := ih []
        simp at h0
        simp [wordsOfGo, hsp, hc]
        omega
      · have h0 := ih []
        simp at h0
        simp [wordsOfGo, hsp, hc]
        omega
    · have hsp' : isSpaceChar c = false := by
        cases hx : isSpaceChar c
        · rfl
        · exact absurd hx hsp
      by_cases hc : cur = []
      · subst hc
        have h0 := ih [c]
        simp at h0
        simp [wordsOfGo, hsp']
        omega
      · have h0 := ih (c :: cur)
        simp at h0
        simp [wordsOfGo, hsp', hc]
        omega

theorem wordsOfGo_all_nonspace : ∀ (l cur : List Char),
    (∀ x ∈ l, isSpaceChar x = false) →
    wordsOfGo cur l = if cur.reverse ++ l = [] then [] else [cur.reverse ++ l] := by
  intro l
  induction l with
  | nil =>
    intro cur _
    by_cases hc : cur = []
    · simp [wordsOfGo, hc]
    · have : cur.reverse ≠ [] := by simpa using hc
      simp [wordsOfGo, hc, this]
  | cons c r ih =>
    intro cur hall
    have hc : isSpaceChar c = false := hall c (by simp)
    have hr : ∀ x ∈ r, isSpaceChar x = false := fun x hx => hall x (by simp [hx])
    simp only [wordsOfGo, hc, Bool.false_eq_true, if_false]
    rw [ih (c :: cur) hr]
    have hne1 : (c :: cur).reverse ++ r ≠ [] := by simp
    have hne2 : cur.reverse ++ c :: r ≠ [] := by simp
    rw [if_neg hne1, if_neg hne2]
    simp

theorem wordsOfGo_all_space : ∀ (l cur : List Char),
    (∀ x ∈ l, isSpaceChar x = true) →
    wordsOfGo cur l = if cur = [] then [] else [cur.reverse] := by
  intro l
  induction l with
  | nil => intro cur _; rfl
  | cons c r ih =>
    intro cur hall
    have hc : isSpaceChar c = true := hall c (by simp)
    have hr : ∀ x ∈ r, isSpaceChar x = true := fun x hx => hall x (by simp [hx])
    by_cases hcur : cur = []
    · simp only [wordsOfGo, hc, hcur, if_true]
      rw [ih [] hr]
      simp
    · simp only [wordsOfGo, hc, hcur, if_true, if_false]
      rw [ih [] hr]
      simp

theorem pollLoop_ok {polls : List (Except String String)} (init : String)
    (h : ∀ x ∈ polls, ∃ st, x = .ok st) :
    ∃ st, pollLoop init polls = .ok st := by
  induction polls with
  | nil => exact ⟨init, rfl⟩
  | cons x rest ih =>
    obtain ⟨st, rfl⟩ := h x (by simp)
    by_cases hterm : st = "completed" ∨ st = "failed" ∨ st = "cancelled" ∨ st = "expired"
    · exact ⟨st, by simp [pollLoop, hterm]⟩
    · have hres := ih (fun y hy => h y (by simp [hy]))
      simpa [pollLoop, hterm] using hres

theorem pollLoop_no_terminal {polls : List (Except String String)} (init : String)
    (h : ∀ x ∈ polls, ∃ st, x = Except.ok st ∧
      ¬(st = "completed" ∨ st = "failed" ∨ st = "cancelled" ∨ st = "expired")) :
    pollLoop init polls = .ok init := by
  induction polls with
  | nil => rfl
  | cons x rest ih =>
    obtain ⟨st, rfl, hterm⟩ := h x (by simp)
    have hres := ih (fun y hy => h y (by simp [hy]))
    simpa [pollLoop, hterm] using hres

theorem draftFallback_RU_ne_empty : draftFallback_RU ≠ "" := by decide

theorem verifyFix_ne_empty (o : AsstOracle) (d : String) (hd : d ≠ "") :
    verifyFix o d ≠ "" := by
  unfold verifyFix
  cases o.verify with
  | error e => exact hd
  | ok content =>
    by_cases h : pyStrip content = ""
    · simp [h, hd]
    · simp [h]

theorem finalSafetyOverride_ne_empty (q a lang : String) :
    finalSafetyOverride q a lang ≠ "" := by
  simp only [finalSafetyOverride]
  split_ifs <;>
    first
      | exact goldAnswer_ne_empty lang "what" (by simp)
      | exact goldAnswer_ne_empty lang "price" (by simp)
      | exact goldAnswer_ne_empty lang "payback" (by simp)
      | exact goldAnswer_ne_empty lang "terms" (by simp)
      | assumption

theorem finalSafetyOverride_mem_gold (q a lang : String)
    (h : looksLikeLegacyFranchise a = true ∨ hasDisallowedNumbers a = true)
    (ha : a ≠ "") :
    finalSafetyOverride q a lang ∈ goldFallbackSet (goldLang lang) := by
  simp only [finalSafetyOverride, goldFallbackSet]
  rw [if_neg ha]
  have hcond : (looksLikeLegacyFranchise a || hasDisallowedNumbers a) = true := by
    rcases h with h | h <;> simp [h]
  rw [if_pos hcond]
  split_ifs <;> simp

theorem finalSafetyOverride_pass (q a lang : String) (ha : a ≠ "")
    (h1 : looksLikeLegacyFranchise a = false)
    (h2 : hasDisallowedNumbers a = false) :
    finalSafetyOverride q a lang = a := by
  simp only [finalSafetyOverride]
  rw [if_neg ha, if_neg]
  simp [h1, h2]

theorem assistantDraft_ok_ne_empty (o : AsstOracle) (lang d : String)
    (h : assistantDraft o lang = .ok d) : d ≠ "" := by
  unfold assistantDraft at h
  cases hc : o.createMsg with
  | error e => simp [hc] at h
  | ok u =>
    simp only [hc] at h
    cases hr : runFinalStatus o with
    | error e => simp [hr] at h
    | ok st =>
      simp only [hr] at h
      by_cases hst : st ≠ "completed"
      · rw [if_pos hst] at h
        obtain rfl : clarifyFallback lang = d := Except.ok.inj h
        exact clarifyFallback_ne_empty lang
      · rw [if_neg hst] at h
        cases hm : o.msgs with
        | error e => simp [hm] at h
        | ok ms =>
          simp only [hm] at h
          cases hf : firstAssistant ms with
          | none =>
            simp only [hf] at h
            obtain rfl : draftFallback_RU = d := Except.ok.inj h
            exact draftFallback_RU_ne_empty
          | some m =>
            simp only [hf] at h
            by_cases hans : pyStrip (joinTextParts m) = ""
            · simp only [hans, if_pos rfl] at h
              obtain rfl : draftFallback_RU = d := Except.ok.inj h
              exact draftFallback_RU_ne_empty
            · rw [if_neg hans] at h
              obtain rfl : pyStrip (joinTextParts m) = d := Except.ok.inj h
              exact hans

theorem calcUA_contains (c : ℕ) :
    strContains (profitCalc_UA c) (euro (grossScaled c)) = true ∧
    strContains (profitCalc_UA c) (euro (netLowScaled c)) = true ∧
    strContains (profitCalc_UA c) (euro (netHighScaled c)) = true := by
  refine ⟨?_, ?_, ?_⟩ <;> unfold strContains profitCalc_UA <;>
    simp only [String.data_append, List.append_assoc]
  · iterate 5 apply containsSub_skip
    exact containsSub_here _ _
  · iterate 7 apply containsSub_skip
    exact containsSub_here _ _
  · iterate 9 apply containsSub_skip
    exact containsSub_here _ _

theorem calcEN_contains (c : ℕ) :
    strContains (profitCalc_EN c) (euro (grossScaled c)) = true ∧
    strContains (profitCalc_EN c) (euro (netLowScaled c)) = true ∧
    strContains (profitCalc_EN c) (euro (netHighScaled c)) = true := by
  refine ⟨?_, ?_, ?_⟩ <;> unfold strContains profitCalc_EN <;>
    simp only [String.data_append, List.append_assoc]
  · iterate 5 apply containsSub_skip
    exact containsSub_here _ _
  · iterate 7 apply containsSub_skip
    exact containsSub_here _ _
  · iterate 9 apply containsSub_skip
    exact containsSub_here _ _

theorem calcFR_contains (c : ℕ) :
    strContains (profitCalc_FR c) (euro (grossScaled c)) = true ∧
    strContains (profitCalc_FR c) (euro (netLowScaled c)) = true ∧
    strContains (profitCalc_FR c) (euro (netHighScaled c)) = true := by
  refine ⟨?_, ?_, ?_⟩ <;> unfold strContains profitCalc_FR <;>
    simp only [String.data_append, List.append_assoc]
  · iterate 5 apply containsSub_skip
    exact containsSub_here _ _
  · iterate 7 apply containsSub_skip
    exact containsSub_here _ _
  · iterate 9 apply containsSub_skip
    exact containsSub_here _ _

theorem calcRU_contains (c : ℕ) :
    strContains (profitCalc_RU c) (euro (grossScaled c)) = true ∧
    strContains (profitCalc_RU c) (euro (netLowScaled c)) = true ∧
    strContains (profitCalc_RU c) (euro (netHighScaled c)) = true := by
  refine ⟨?_, ?_, ?_⟩ <;> unfold strContains profitCalc_RU <;>
    simp only [String.data_append, List.append_assoc]
  · iterate 5 apply containsSub_skip
    exact containsSub_here _ _
  · iterate 7 apply containsSub_skip
    exact containsSub_here _ _
  · iterate 9 apply containsSub_skip
    exact containsSub_here _ _

theorem profitAnswer_contains (lang : String) (c : ℕ) :
    strContains (profitAnswer lang (some c)) (euro (grossScaled c)) = true ∧
    strContains (profitAnswer lang (some c)) (euro (netLowScaled c)) = true ∧
    strContains (profitAnswer lang (some c)) (euro (netHighScaled c)) = true := by
  unfold profitAnswer
  rcases goldLang_cases lang with h | h | h | h <;> rw [h]
  · simpa using calcRU_contains c
  · simpa using calcUA_contains c
  · simpa using calcEN_contains c
  · simpa using calcFR_contains c

theorem grossScaled_eq (c : ℕ) : ((grossScaled c : ℤ) : ℚ) = 10 * grossQ c := by
  unfold grossScaled grossQ margin_per_cup daysPerMonth
  push_cast
  norm_num
  ring

theorem netLowScaled_eq (c : ℕ) : ((netLowScaled c : ℤ) : ℚ) = 10 * netLowQ c := by
  unfold netLowScaled netLowQ
  push_cast
  rw [grossScaled_eq]
  ring

theorem netHighScaled_eq (c : ℕ) : ((netHighScaled c : ℤ) : ℚ) = 10 * netHighQ c := by
  unfold netHighScaled netHighQ
  push_cast
  rw [grossScaled_eq]
  ring

theorem grossQ_eq (c : ℕ) : grossQ c = 54 * c := by
  unfold grossQ margin_per_cup daysPerMonth
  push_cast
  norm_num
  ring

/-!
Claim theorems
-/

/-- C1: For every cupsPerDay in [1, 200] and every language, the deterministic
calculator computes grossMonth = 1.8 · cups · 30 exactly (equal to 54 · cups),
netLow = gross − 600 (the maximum monthly expense), netHigh = gross − 450 (the
minimum), hence netLow ≤ netHigh always; the (possibly negative) net figures
are embedded as-is in the reply text, with no special-casing. -/
theorem profit_calculator_correct (lang : String) (cups : ℕ)
    (h1 : 1 ≤ cups) (h2 : cups ≤ 200) :
    grossQ cups = margin_per_cup * cups * 30 ∧
    grossQ cups = 54 * cups ∧
    netLowQ cups = grossQ cups - 600 ∧
    netHighQ cups = grossQ cups - 450 ∧
    netLowQ cups ≤ netHighQ cups ∧
    ((netLowScaled cups : ℤ) : ℚ) = 10 * netLowQ cups ∧
    ((netHighScaled cups : ℤ) : ℚ) = 10 * netHighQ cups ∧
    strContains (profitAnswer lang (some cups)) (euro (netLowScaled cups)) = true ∧
    strContains (profitAnswer lang (some cups)) (euro (netHighScaled cups)) = true := by
  refine ⟨?_, grossQ_eq cups, rfl, rfl, ?_, netLowScaled_eq cups, netHighScaled_eq cups,
    (profitAnswer_contains lang cups).2.1, (profitAnswer_contains lang cups).2.2⟩
  · norm_num [grossQ, daysPerMonth]
  · unfold netLowQ netHighQ
    linarith

/-- C1 witness: at cupsPerDay = 1 the net range is negative (−546 € to −396 €)
and is still rendered as-is. -/
theorem profit_calculator_correct_witness :
    euro (netLowScaled 1) = "-546 €" ∧
    (grossQ 1 = margin_per_cup * 1 * 30 ∧
     grossQ 1 = 54 * 1 ∧
     netLowQ 1 = grossQ 1 - 600 ∧
     netHighQ 1 = grossQ 1 - 450 ∧
     netLowQ 1 ≤ netHighQ 1 ∧
     ((netLowScaled 1 : ℤ) : ℚ) = 10 * netLowQ 1 ∧
     ((netHighScaled 1 : ℤ) : ℚ) = 10 * netHighQ 1 ∧
     strContains (profitAnswer "EN" (some 1)) (euro (netLowScaled 1)) = true ∧
     strContains (profitAnswer "EN" (some 1)) (euro (netHighScaled 1)) = true) :=
  ⟨by decide, profit_calculator_correct "EN" 1 (by decide) (by decide)⟩

/-- C2 counterexample: in "profit 5 and 30" neither unit pattern matches, the
first in-range number adjacent to the profit cue is 5, yet the extraction
returns 30 — the fallback is not "the first in-range number near a profit-cue
keyword" but a preference order (prefer [10,120], then closeness to 35). -/
theorem cups_extraction_fallback_counterexample :
    parseCupsPerDay "profit 5 and 30" = some 30 ∧
    specFirstInRangeNumber "profit 5 and 30" = some 5 ∧
    (30 : ℕ) ≠ 5 :=
  ⟨by decide, by decide, by decide⟩

/-- C2 (amended): cups-per-day extraction returns none or an integer in
[1, 200]; "35 cups" and "35 чашок" both give 35; an out-of-range number (250,
with or without a unit keyword) gives none, never a clamped value; and when no
unit/per-day pattern matches, the fallback picks, among all in-range numbers
in the text, the earliest one with minimal preference key (inside [10,120]
first, then smallest |n − 35|) — with no keyword-proximity condition. -/
theorem cups_extraction_amended :
    (∀ (t : String) (v : ℕ), parseCupsPerDay t = some v → 1 ≤ v ∧ v ≤ 200) ∧
    parseCupsPerDay "35 cups" = some 35 ∧
    parseCupsPerDay "35 чашок" = some 35 ∧
    parseCupsPerDay "250" = none ∧
    parseCupsPerDay "250 cups" = none ∧
    (∀ (l : List ℕ) (m : ℕ), pickCups l = some m →
      m ∈ l ∧ ∀ n ∈ l, keyLt n m = false) := by
  refine ⟨?_, by decide, by decide, by decide, by decide, ?_⟩
  · intro t v h
    unfold parseCupsPerDay at h
    by_cases hempty : t.data = []
    · rw [if_pos hempty] at h
      cases h
    · rw [if_neg hempty] at h
      cases hu : searchCups unitAlts (lowerList t.data) with
      | some u =>
        simp only [hu] at h
        by_cases hr : 1 ≤ u ∧ u ≤ 200
        · rw [if_pos hr] at h
          obtain rfl : u = v := Option.some.inj h
          exact hr
        · rw [if_neg hr] at h
          cases h
      | none =>
        simp only [hu] at h
        cases hd : searchCups dayAlts (lowerList t.data) with
        | some u =>
          simp only [hd] at h
          by_cases hr : 1 ≤ u ∧ u ≤ 200
          · rw [if_pos hr] at h
            obtain rfl : u = v := Option.some.inj h
            exact hr
          · rw [if_neg hr] at h
            cases h
        | none =>
          simp only [hd] at h
          have hmem := pickCups_mem h
          have := (List.mem_filter.mp hmem).2
          exact of_decide_eq_true this
  · intro l m h
    exact ⟨pickCups_mem h, pickCups_min h⟩

/-- C2 witness: extraction on "40 cups" yields 40, which is in range. -/
theorem cups_extraction_amended_witness :
    parseCupsPerDay "40 cups" = some 40 ∧ (1 ≤ 40 ∧ 40 ≤ 200) :=
  ⟨by decide, cups_extraction_amended.1 "40 cups" 40 (by decide)⟩

/-- C3 counterexample: the exact message of the scenario contains none of the
profit-cue keywords of `_looks_like_profit_question`, so the deterministic
calculator bypass does not fire and the LLM pipeline is invoked (the second
component of the result is `true`). -/
theorem profit_scenario_counterexample :
    looksLikeProfitQuestion "if I sell 40 cups a day how much do I make" = false ∧
    askAssistantR oracleStub "if I sell 40 cups a day how much do I make" "EN"
      = .ok ("ok", true) :=
  ⟨by decide, by decide⟩

/-- C3 (amended): a message containing a recognised profit cue — "if I sell
40 cups a day how much do I earn" — is answered by the deterministic
calculator with the literal figures for cupsPerDay = 40 under the fixed
constants (2 160 € gross, 1 560–1 710 € net), and the LLM pipeline is not
invoked, whatever the collaborator oracle would have answered. -/
theorem profit_scenario_amended : ∀ o : AsstOracle,
    askAssistantR o "if I sell 40 cups a day how much do I earn" "EN"
      = .ok (profitCalc_EN 40, false) ∧
    strContains (profitCalc_EN 40) "2 160 €" = true ∧
    strContains (profitCalc_EN 40) "1 560 €" = true ∧
    strContains (profitCalc_EN 40) "1 710 €" = true := by
  intro o
  refine ⟨?_, by decide, by decide, by decide⟩
  unfold askAssistantR
  rw [if_pos (show looksLikeProfitQuestion
    "if I sell 40 cups a day how much do I earn" = true by decide)]
  rw [show parseCupsPerDay "if I sell 40 cups a day how much do I earn"
    = some 40 by decide]
  rw [show profitAnswer "EN" (some 40) = profitCalc_EN 40 by decide]

/-- C4: menu-button matching is exact string equality against the session
label table of the session language only: any text equal to a menu label of a different
language and to no label of the session language matches no menu key and is
routed to the free-text LLM fallback. -/
theorem menu_cross_language_fallback (B t : String)
    (hB : B ∈ LANGS_L)
    (hA : ∃ A ∈ LANGS_L, A ≠ B ∧ t ∈ menuLabelsOf A)
    (hnB : t ∉ menuLabelsOf B)
    (hs : pyStrip t = t) (hne : t ≠ "") :
    matchMenuKey B t = none ∧
    onMessageAction [] "u" B false t = .freeTextLLM t := by
  have hnone := matchMenuKey_eq_none_of_not_mem B t hnB
  refine ⟨hnone, ?_⟩
  unfold onMessageAction
  rw [hs]
  simp [hne, hnone]

/-- C4 witness: with session language EN, the Ukrainian price label matches
nothing and goes to the LLM fallback. -/
theorem menu_cross_language_fallback_witness :
    matchMenuKey "EN" menu_UA_price = none ∧
    onMessageAction [] "u" "EN" false menu_UA_price = .freeTextLLM menu_UA_price :=
  menu_cross_language_fallback "EN" menu_UA_price (by decide)
    ⟨"UA", by decide, by decide, by decide⟩ (by decide) (by decide) (by decide)

/-- C5 counterexample: the draft "49 000" matches a banned pattern and the
question "cost" selects the price intent, so the gold EN price answer is
substituted — but that final text itself still contains a number outside the
allow-list (the 300 of "Jetinno JL-300"), so the returned text does not
satisfy the ban/allow-list check, contrary to the claim. -/
theorem final_safety_counterexample :
    looksLikeLegacyFranchise "49 000" = true ∧
    finalSafetyOverride "cost" "49 000" "EN" = gold_EN_price ∧
    hasDisallowedNumbers (finalSafetyOverride "cost" "49 000" "EN") = true :=
  ⟨by decide, by decide, by decide⟩

/-- C5 (amended): when the verified draft still contains banned content or a
disallowed number, the pipeline substitutes one of the curated gold answers
chosen by keyword intent from the original question, and a non-empty draft
that passes both checks is returned unchanged; the returned text is never
empty — but the substituted gold answer is not itself re-checked and can
contain text outside the allow-list (e.g. "JL-300", or the stem "паушальн"
in the RU/UA terms answers). -/
theorem final_safety_amended (q a lang : String) :
    ((looksLikeLegacyFranchise a = true ∨ hasDisallowedNumbers a = true) →
      a ≠ "" →
      finalSafetyOverride q a lang ∈ goldFallbackSet (goldLang lang)) ∧
    (a ≠ "" → looksLikeLegacyFranchise a = false → hasDisallowedNumbers a = false →
      finalSafetyOverride q a lang = a) ∧
    finalSafetyOverride q a lang ≠ "" :=
  ⟨fun h ha => finalSafetyOverride_mem_gold q a lang h ha,
   fun ha h1 h2 => finalSafetyOverride_pass q a lang ha h1 h2,
   finalSafetyOverride_ne_empty q a lang⟩

/-- C5 witness: a banned draft is replaced by a gold answer; a clean draft
passes through unchanged. -/
theorem final_safety_amended_witness :
    finalSafetyOverride "cost" "49 000" "EN" ∈ goldFallbackSet (goldLang "EN") ∧
    finalSafetyOverride "x" "fine" "EN" = "fine" :=
  ⟨(final_safety_amended "cost" "49 000" "EN").1 (Or.inl (by decide)) (by decide),
   (final_safety_amended "x" "fine" "EN").2.1 (by decide) (by decide) (by decide)⟩

/-- C6 counterexample: the API calls inside `_assistant_draft` are not
guarded by try/except — when posting the user message raises, `ask_assistant`
propagates the exception instead of returning an answer. -/
theorem ask_assistant_counterexample :
    askAssistantR oracleErr "hello" "EN" = .error "boom" := by decide

/-- C6 (amended): provided the collaborator transport calls return without
raising (message post, run creation, status polls, message listing),
`ask_assistant` returns a non-empty answer for every user id, text and
language: a run that does not complete within the polling deadline degrades
the draft to the fixed clarifying question; an exception in the verifier call
is caught and keeps the draft; a missing assistant message degrades to a
fixed non-empty fallback — but a raised transport call propagates (see the
counterexample), which the original claim overlooked. -/
theorem ask_assistant_amended :
    (∀ (o : AsstOracle) (q lang : String),
      o.createMsg = .ok () → (∃ st, o.createRun = .ok st) →
      (∀ x ∈ o.polls, ∃ st, x = .ok st) → (∃ ms, o.msgs = .ok ms) →
      ∃ s b, askAssistantR o q lang = .ok (s, b) ∧ s ≠ "") ∧
    (∀ (o : AsstOracle) (lang st0 : String),
      o.createMsg = .ok () → o.createRun = .ok st0 → st0 ≠ "completed" →
      (∀ x ∈ o.polls, ∃ st, x = Except.ok st ∧
        ¬(st = "completed" ∨ st = "failed" ∨ st = "cancelled" ∨ st = "expired")) →
      assistantDraft o lang = .ok (clarifyFallback lang)) ∧
    (∀ (o : AsstOracle) (draft e : String),
      o.verify = .error e → verifyFix o draft = draft) ∧
    (∀ (o : AsstOracle) (lang : String) (ms : List AMsg),
      o.createMsg = .ok () → runFinalStatus o = .ok "completed" → o.msgs = .ok ms →
      firstAssistant ms = none → assistantDraft o lang = .ok draftFallback_RU) := by
  refine ⟨?_, ?_, ?_, ?_⟩
  · intro o q lang h1 h2 hp h4
    obtain ⟨st0, h2⟩ := h2
    obtain ⟨ms, h4⟩ := h4
    by_cases hprof : looksLikeProfitQuestion q = true
    · refine ⟨profitAnswer lang (parseCupsPerDay q), false, ?_, profitAnswer_ne_empty lang _⟩
      unfold askAssistantR
      rw [if_pos hprof]
    · have hdraft : ∃ d, assistantDraft o lang = .ok d := by
        obtain ⟨st, hst⟩ := pollLoop_ok st0 hp
        have hrfs : runFinalStatus o = .ok st := by
          unfold runFinalStatus
          rw [h2]
          exact hst
        unfold assistantDraft
        simp only [h1, hrfs]
        by_cases hstc : st ≠ "completed"
        · rw [if_pos hstc]
          exact ⟨_, rfl⟩
        · rw [if_neg hstc]
          simp only [h4]
          cases hfa : firstAssistant ms
          · exact ⟨_, rfl⟩
          · exact ⟨_, rfl⟩
      obtain ⟨d, hd⟩ := hdraft
      refine ⟨finalSafetyOverride q (verifyFix o d) lang, true, ?_, ?_⟩
      · unfold askAssistantR
        rw [if_neg hprof]
        simp only [hd]
      · exact finalSafetyOverride_ne_empty q (verifyFix o d) lang
  · intro o lang st0 h1 h2 hst0 hp
    unfold assistantDraft
    have hrfs : runFinalStatus o = .ok st0 := by
      unfold runFinalStatus
      rw [h2]
      exact pollLoop_no_terminal st0 hp
    simp only [h1, hrfs]
    rw [if_pos hst0]
  · intro o draft e hv
    unfold verifyFix
    rw [hv]
  · intro o lang ms h1 hrun hm hfa
    unfold assistantDraft
    simp only [h1, hrun, hm, hfa]
    rw [if_neg (by simp)]

/-- C6 witness: a healthy oracle yields a non-empty `.ok` answer. -/
theorem ask_assistant_amended_witness :
    ∃ s b, askAssistantR oracleOk "hi" "EN" = .ok (s, b) ∧ s ≠ "" :=
  ask_assistant_amended.1 oracleOk "hi" "EN" rfl ⟨"queued", rfl⟩
    (by
      intro x hx
      simp only [oracleOk, List.mem_singleton] at hx
      exact ⟨"completed", hx⟩)
    ⟨[⟨"assistant", [("text", "Fine, tell me more.")]⟩], rfl⟩

/-- C7 counterexample: `cmd_start` performs no block-list check — a blocked
user ("7", in the block list) still receives the greeting reply. -/
theorem blocked_start_counterexample :
    ("7" : String) ∈ (["7"] : List String) ∧
    cmdStartOutputs ["7"] "7" "RU" = [start_RU] ∧
    cmdStartOutputs ["7"] "7" "RU" ≠ [] :=
  ⟨by decide, by decide, by decide⟩

/-- C7 (amended): the combined text/voice message handler checks the block
list first and produces no output for a blocked user, and the language
callback, which acknowledges the callback before checking, sends a blocked
user nothing beyond the acknowledgement; but `/start` (and `/status`) perform
no block-list check, so a blocked user still receives the `/start` greeting. -/
theorem block_list_amended :
    (∀ (b : List String) (uid lang : String) (v : Bool) (t : String),
      uid ∈ b → onMessageAction b uid lang v t = .ignored) ∧
    (∀ (b : List String) (uid data : String),
      uid ∈ b → onLangCallbackOutputs b uid data = [CbOut.ack]) ∧
    (∀ (b : List String) (uid lang : String),
      cmdStartOutputs b uid lang = [startMsg lang]) := by
  refine ⟨?_, ?_, fun b uid lang => rfl⟩
  · intro b uid lang v t h
    unfold onMessageAction
    rw [if_pos (List.elem_iff.mpr h)]
  · intro b uid data h
    unfold onLangCallbackOutputs
    rw [if_pos (List.elem_iff.mpr h)]

/-- C7 witness: blocked user "7" gets nothing from the message handler and
only the acknowledgement from the language callback. -/
theorem block_list_amended_witness :
    onMessageAction ["7"] "7" "RU" false "hi" = .ignored ∧
    onLangCallbackOutputs ["7"] "7" "l:EN" = [CbOut.ack] :=
  ⟨block_list_amended.1 ["7"] "7" "RU" false "hi" (by decide),
   block_list_amended.2.1 ["7"] "7" "l:EN" (by decide)⟩

/-- C8 (spec-modelled, the guard is absent from this revision of the source):
a single character repeated at least 7 times is classified as spam and routed
to the fixed rejection reply without invoking the LLM (it can never equal a
menu label); and a text whose trimmed form has at least 3 distinct
whitespace-separated words and strictly more than 15% alphanumeric characters
is never classified as spam. -/
theorem spam_guard_spec :
    (∀ (lang : String) (c : Char) (n : ℕ), 7 ≤ n →
      routeSpec lang (String.mk (List.replicate n c)) = SpecRoute.spamReject) ∧
    (∀ t : String, 3 ≤ ((wordsOf (trimChars t.data)).dedup).length →
      15 * (trimChars t.data).length < 100 * countAlnum (trimChars t.data) →
      isSpamSpec t = false) := by
  constructor
  · intro lang c n hn
    unfold routeSpec
    have hdata : (String.mk (List.replicate n c)).data = List.replicate n c := rfl
    by_cases hsp : isSpaceChar c = true
    · have htrim : trimChars (List.replicate n c) = [] := trimChars_replicate_space hsp n
      have hps : pyStrip (String.mk (List.replicate n c)) = "" := by
        unfold pyStrip
        rw [hdata, htrim]
      rw [hps]
      have hmatch : matchMenuKey lang "" = none :=
        matchMenuKey_eq_none_of_not_mem lang ""
          (mk_not_label_of_allSame lang [] rfl)
      rw [hmatch]
      have hspam : isSpamSpec (String.mk (List.replicate n c)) = true := by
        unfold isSpamSpec
        rw [hdata, htrim]
        simp
      rw [hspam]
      rfl
    · have hsp' : isSpaceChar c = false := by
        cases hx : isSpaceChar c
        · rfl
        · exact absurd hx hsp
      have htrim := trimChars_replicate_nonspace hsp' n
      have hps : pyStrip (String.mk (List.replicate n c))
          = String.mk (List.replicate n c) := by
        unfold pyStrip
        rw [hdata, htrim]
      rw [hps]
      have hmatch : matchMenuKey lang (String.mk (List.replicate n c)) = none :=
        matchMenuKey_eq_none_of_not_mem lang _
          (mk_not_label_of_allSame lang _ (allSameB_replicate n c))
      rw [hmatch]
      have hspam : isSpamSpec (String.mk (List.replicate n c)) = true := by
        unfold isSpamSpec
        rw [hdata, htrim]
        obtain ⟨m, rfl⟩ : ∃ m, n = m + 7 := ⟨n - 7, by omega⟩
        rw [show m + 7 = (m + 6) + 1 from rfl, List.replicate_succ]
        have hlen : ¬((c :: List.replicate (m + 6) c).length ≤ 2) := by
          simp
        have hrep : isRepeatRun (c :: List.replicate (m + 6) c) = true := by
          simp [isRepeatRun, List.all_eq_true, List.mem_replicate]
        rw [if_neg hlen, if_pos hrep]
      rw [hspam]
      rfl
  · intro t h3 hdens
    have hW : 3 ≤ (wordsOf (trimChars t.data)).length :=
      le_trans h3 (List.Sublist.length_le (List.dedup_sublist _))
    have hlen : ¬((trimChars t.data).length ≤ 2) := by
      have h0 := wordsOfGo_len_le (trimChars t.data) []
      simp at h0
      unfold wordsOf at hW
      omega
    have hrep : isRepeatRun (trimChars t.data) = false := by
      cases hx : isRepeatRun (trimChars t.data) with
      | false => rfl
      | true =>
        exfalso
        cases htrc : trimChars t.data with
        | nil => rw [htrc] at hx; cases hx
        | cons c r =>
          rw [htrc] at hx
          have hx' : 6 ≤ r.length ∧ ∀ x ∈ r, x = c := by
            simpa [isRepeatRun, List.all_eq_true] using hx
          have hall : ∀ x ∈ r, x = c := hx'.2
          rw [htrc] at hW
          by_cases hc : isSpaceChar c = true
          · have hallsp : ∀ x ∈ (c :: r), isSpaceChar x = true := by
              intro x hxm
              rcases List.mem_cons.mp hxm with rfl | hxr
              · exact hc
              · rw [hall x hxr]; exact hc
            have hwords : wordsOf (c :: r) = [] := by
              unfold wordsOf
              rw [wordsOfGo_all_space _ _ hallsp]
              rfl
            rw [hwords] at hW
            simp at hW
          · have hc' : isSpaceChar c = false := by
              cases hy : isSpaceChar c
              · rfl
              · exact absurd hy hc
            have hallns : ∀ x ∈ (c :: r), isSpaceChar x = false := by
              intro x hxm
              rcases List.mem_cons.mp hxm with rfl | hxr
              · exact hc'
              · rw [hall x hxr]; exact hc'
            have hwords : wordsOf (c :: r) = [c :: r] := by
              unfold wordsOf
              rw [wordsOfGo_all_nonspace _ _ hallns]
              simp
            rw [hwords] at hW
            simp at hW
    have hd : ¬(5 ≤ (trimChars t.data).length ∧
        100 * countAlnum (trimChars t.data) < 15 * (trimChars t.data).length) := by
      omega
    unfold isSpamSpec
    rw [if_neg hlen, if_neg, if_neg hd]
    rw [hrep]
    simp

/-- C8 witness: "aaaaaaa" is rejected as spam; a normal question is not. -/
theorem spam_guard_spec_witness :
    routeSpec "EN" (String.mk (List.replicate 7 'a')) = SpecRoute.spamReject ∧
    isSpamSpec "how much does it cost" = false :=
  ⟨spam_guard_spec.1 "EN" 'a' 7 (by decide),
   spam_guard_spec.2 "how much does it cost" (by decide) (by decide)⟩

/-- C9 (spec-modelled, the collector is absent from this revision of the
source): the lead form state only moves one step forward or resets fully to
the initial (None) state; a reachable state never has a populated message
field (and a None-step state is exactly the initial state); and a user who
completes all 4 steps produces exactly one operator notification carrying all
4 collected fields plus the platform user id, after which the form is reset —
independently of the delivery outcome. -/
theorem lead_form_spec :
    (∀ s, ReachableLead s → s.msg = "" ∧ (s.step = LeadStep.none → s = leadInit)) ∧
    (∀ (uid : String) (ok : Bool) (s : LeadFormSt) (t : String),
      stepIdx (leadStepInput uid ok s t).1.step = stepIdx s.step + 1 ∨
      (leadStepInput uid ok s t).1 = leadInit ∨
      (s.step = LeadStep.none ∧ (leadStepInput uid ok s t).1 = s)) ∧
    (∀ (uid : String) (ok : Bool) (n p e m : String),
      runLead uid ok [n, p, e, m] { leadInit with step := LeadStep.name }
        = (leadInit, [⟨n, p, e, m, uid⟩])) := by
  refine ⟨?_, ?_, ?_⟩
  · intro s hs
    induction hs with
    | init => exact ⟨rfl, fun _ => rfl⟩
    | press hs ih =>
      refine ⟨rfl, ?_⟩
      intro h
      simp [leadPress, leadInit] at h
    | input uid ok t hs ih =>
      rename_i s'
      obtain ⟨st, nm, ph, em, ms⟩ := s'
      cases st <;> simp_all [leadStepInput, leadInit]
  · intro uid ok s t
    obtain ⟨st, nm, ph, em, ms⟩ := s
    cases st <;> simp [leadStepInput, stepIdx, leadInit]
  · intro uid ok n p e m
    rfl

/-- C9 witness: the initial state satisfies the invariant, and a full run
with 4 inputs produces exactly the single expected notification. -/
theorem lead_form_spec_witness :
    (leadInit.msg = "" ∧ (leadInit.step = LeadStep.none → leadInit = leadInit)) ∧
    runLead "77" true ["a", "b", "c", "d"] { leadInit with step := LeadStep.name }
      = (leadInit, [⟨"a", "b", "c", "d", "77"⟩]) :=
  ⟨lead_form_spec.1 leadInit ReachableLead.init,
   lead_form_spec.2.2 "77" true "a" "b" "c" "d"⟩

/-- C10: every reply-producing operation is total in the session language:
for any language code outside the supported four (which can enter via the
persisted state file), gold_lang, the menu table and keyboard, the contacts
text, the calculator texts and the gold answers all fall back to the Russian
tables, so no table lookup can fail. -/
theorem language_fallback_total (lang : String)
    (h : lang ∉ ["UA", "RU", "EN", "FR"]) :
    goldLang lang = "RU" ∧
    menuTable lang = menuTable "RU" ∧
    replyMenuKeyboard lang = replyMenuKeyboard "RU" ∧
    contactsTextOf lang = contactsTextOf "RU" ∧
    (∀ c, profitAnswer lang c = profitAnswer "RU" c) ∧
    (∀ k, goldAnswer (goldLang lang) k = goldAnswer (goldLang "RU") k) := by
  have h1 : lang ≠ "UA" := fun hx => h (by simp [hx])
  have h2 : lang ≠ "RU" := fun hx => h (by simp [hx])
  have h3 : lang ≠ "EN" := fun hx => h (by simp [hx])
  have h4 : lang ≠ "FR" := fun hx => h (by simp [hx])
  have hgl : goldLang lang = "RU" := by
    unfold goldLang
    rw [if_neg]
    intro hc
    have hm := List.elem_iff.mp hc
    simp [goldLangs] at hm
    rcases hm with rfl | rfl | rfl | rfl
    · exact h2 rfl
    · exact h1 rfl
    · exact h3 rfl
    · exact h4 rfl
  have hmt : menuTable lang = menuTable "RU" := by
    unfold menuTable
    rw [if_neg h1, if_neg h2, if_neg h3, if_neg h4]
    rfl
  refine ⟨hgl, hmt, ?_, ?_, ?_, ?_⟩
  · simp only [replyMenuKeyboard, menuLabel, hmt]
  · unfold contactsTextOf
    rw [if_neg h1, if_neg h2, if_neg h3, if_neg h4]
    rfl
  · intro c
    unfold profitAnswer
    rw [hgl, show goldLang "RU" = "RU" from rfl]
  · intro k
    rw [hgl, show goldLang "RU" = "RU" from rfl]

/-- C10 witness: the unsupported code "XX" falls back to the Russian tables
everywhere. -/
theorem language_fallback_total_witness :
    goldLang "XX" = "RU" ∧
    menuTable "XX" = menuTable "RU" ∧
    replyMenuKeyboard "XX" = replyMenuKeyboard "RU" ∧
    contactsTextOf "XX" = contactsTextOf "RU" ∧
    (∀ c, profitAnswer "XX" c = profitAnswer "RU" c) ∧
    (∀ k, goldAnswer (goldLang "XX") k = goldAnswer (goldLang "RU") k) :=
  language_fallback_total "XX" (by decide)

end MdcBot
